import Mathlib

/-!
Shallow embedding of the advection-rs simulation engine (src/simulation.rs).

Conventions of the embedding:
* Rust f64 values are modelled as exact rationals.  Decimal literals of the
  source (0.05, 1e-6, ...) are read as the exact decimal value.
* A Rust Vec of f64 is a Lean List of rationals.  An in-bounds read u[i] is
  modelled as List.getD i 0; loops of the form
  "for i in lo..hi { v[i] = e(i) }" (which write each index of a clone at
  most once and read only frozen arrays) are modelled as a foldl of
  List.set over List.range' lo (hi - lo).
* usize is a natural number.  Truncated Nat subtraction coincides with the
  source's usize subtraction at every evaluation the integrators can reach
  (short-circuit guards ensure the subtrahend never exceeds the length).
* Potential runtime failures (out-of-bounds indexing, the unreachable
  dispatch arms) are modelled in a parallel "Chk" layer in the Option
  monad, where every array read is the partial List.getElem? and every
  unreachable arm is none.  The total layer and the Chk layer are proved
  to agree, which is the no-runtime-failure statement.
-/

namespace Advection

inductive SpatialScheme where
  | Central
  | Upwind
  | LaxWendroff
  | ENO
  | WENO
  | CIP
deriving DecidableEq

inductive TemporalScheme where
  | ForwardEuler
  | Rk2
  | Rk3
  | Rk4
  | TvdRk2
  | TvdRk3
  | TvdRk4
deriving DecidableEq

structure Descriptor where
  time_scale : ℚ
  delta_t : ℚ
  delta_x : ℚ
  bound : ℚ
  vel : ℚ
  spatial_scheme : SpatialScheme
  temporal_scheme : TemporalScheme
deriving DecidableEq

/-- Descriptor::new, the default parameter set of the source
(time_scale, delta_t, delta_x, bound, vel, spatial_scheme, temporal_scheme). -/
def Descriptor.new : Descriptor :=
  ⟨1.0, 0.01666, 0.05, 10.0, 1.0, SpatialScheme.WENO, TemporalScheme.ForwardEuler⟩

/-- fn discrete: (x / desc.delta_x).round() as usize.  Rust rounds half away
from zero and the usize cast saturates negatives to 0; on rationals,
round (ties up) followed by Int.toNat produces the same natural number,
because for nonnegative arguments the two rounding rules agree and every
negative argument lands at 0 after the cast either way. -/
def discrete (x : ℚ) (desc : Descriptor) : ℕ :=
  (round (x / desc.delta_x)).toNat

inductive SchemeBuffer where
  | None
  | CIP (g_grid : List ℚ)
deriving DecidableEq

structure Scenario where
  desc : Descriptor
  u_grid : List ℚ
  scheme_buffer : SchemeBuffer
deriving DecidableEq

/-- Scenario::new: a zero field of length n = discrete(bound), with 1.0
written at indices discrete(0.5).min(n) ..< discrete(1.0).min(n), and the
CIP slope buffer (all zeros) exactly when the spatial scheme is CIP. -/
def Scenario.new (desc : Descriptor) : Scenario :=
  let n := discrete desc.bound desc
  let u_grid0 : List ℚ := List.replicate n 0
  let lower := min (discrete 0.5 desc) n
  let upper := min (discrete 1.0 desc) n
  let u_grid := (List.range' lower (upper - lower)).foldl (fun g i => g.set i 1) u_grid0
  let scheme_buffer :=
    match desc.spatial_scheme with
    | SpatialScheme.CIP => SchemeBuffer.CIP (List.replicate n 0)
    | _ => SchemeBuffer.None
  ⟨desc, u_grid, scheme_buffer⟩

/-- fn st_forward. -/
def st_forward (i : ℕ) (u : List ℚ) (desc : Descriptor) : ℚ :=
  if 0 ≤ i ∧ i < u.length - 1 then
    let dx := desc.delta_x
    let p := -desc.vel * desc.delta_t
    (u.getD (i + 1) 0 - u.getD i 0) / dx * p
  else
    0

/-- fn st_backward. -/
def st_backward (i : ℕ) (u : List ℚ) (desc : Descriptor) : ℚ :=
  if 1 ≤ i ∧ i < u.length then
    let dx := desc.delta_x
    let p := -desc.vel * desc.delta_t
    (u.getD i 0 - u.getD (i - 1) 0) / dx * p
  else
    0

/-- fn st_central. -/
def st_central (i : ℕ) (u : List ℚ) (desc : Descriptor) : ℚ :=
  if 1 ≤ i ∧ i < u.length - 1 then
    let dx := desc.delta_x
    let p := -desc.vel * desc.delta_t
    let grad_1 := (u.getD (i + 1) 0 - u.getD (i - 1) 0) / (2 * dx)
    grad_1 * p
  else
    0

/-- fn st_upwind. -/
def st_upwind (i : ℕ) (u : List ℚ) (desc : Descriptor) : ℚ :=
  if 0 ≤ desc.vel then
    st_backward i u desc
  else
    st_forward i u desc

/-- fn st_lax_wendroff. -/
def st_lax_wendroff (i : ℕ) (u : List ℚ) (desc : Descriptor) : ℚ :=
  if 1 ≤ i ∧ i < u.length - 1 then
    let dx := desc.delta_x
    let p := -desc.vel * desc.delta_t
    let grad_1 := (u.getD (i + 1) 0 - u.getD (i - 1) 0) / (2 * dx)
    let grad_2 := (u.getD (i + 1) 0 - 2 * u.getD i 0 + u.getD (i - 1) 0) / (2 * dx * dx)
    grad_1 * p + grad_2 * p * p
  else
    0

/-- the closure d_1h of fn st_eno, lambda-lifted. -/
def eno_d1h (u : List ℚ) (dx : ℚ) (i : ℕ) : ℚ :=
  (u.getD (i + 1) 0 - u.getD i 0) / dx

/-- the closure d_2m of fn st_eno, lambda-lifted. -/
def eno_d2m (u : List ℚ) (dx : ℚ) (i : ℕ) : ℚ :=
  (eno_d1h u dx i - eno_d1h u dx (i - 1)) / (2 * dx)

/-- the closure d_3h of fn st_eno, lambda-lifted. -/
def eno_d3h (u : List ℚ) (dx : ℚ) (i : ℕ) : ℚ :=
  (eno_d2m u dx (i + 1) - eno_d2m u dx i) / (3 * dx)

/-- fn st_eno. -/
def st_eno (i : ℕ) (u : List ℚ) (desc : Descriptor) : ℚ :=
  if 3 ≤ i ∧ i < u.length - 3 then
    let dx := desc.delta_x
    let b_1 := 0 ≤ desc.vel
    let k := if b_1 then i - 1 else i
    let b_2 := 0 ≤ |eno_d2m u dx (k + 1)| - |eno_d2m u dx k|
    let l := if b_2 then k - 1 else k
    let b_3 := 0 ≤ |eno_d3h u dx (l + 1)| - |eno_d3h u dx l|
    let q_1 := (u.getD i 0 - u.getD (i - 1) 0) / dx
    let q_2 :=
      if b_2 then
        (u.getD i 0 - 2 * u.getD (i - 1) 0 + u.getD (i - 2) 0) / (2 * dx)
      else
        (u.getD (i + 1) 0 - 2 * u.getD i 0 + u.getD (i - 1) 0) / (2 * dx)
    let q_3 :=
      if b_2 ∧ b_3 then
        (u.getD i 0 - 3 * u.getD (i - 1) 0 + 3 * u.getD (i - 2) 0 - u.getD (i - 3) 0) / (3 * dx)
      else if b_2 ∧ ¬b_3 then
        (u.getD (i + 1) 0 - 3 * u.getD i 0 + 3 * u.getD (i - 1) 0 - u.getD (i - 2) 0) / (3 * dx)
      else if ¬b_2 ∧ b_3 then
        (u.getD (i + 1) 0 - 3 * u.getD i 0 + 3 * u.getD (i - 1) 0 - u.getD (i - 2) 0) / (-6 * dx)
      else
        (u.getD (i + 2) 0 - 3 * u.getD (i + 1) 0 + 3 * u.getD i 0 - u.getD (i - 1) 0) / (-6 * dx)
    let p := -desc.vel * desc.delta_t
    (q_1 + q_2 + q_3) * p
  else
    0

/-- the closure d_1l of fn st_weno, lambda-lifted. -/
def weno_d1l (u : List ℚ) (dx : ℚ) (i : ℕ) : ℚ :=
  (u.getD i 0 - u.getD (i - 1) 0) / dx

/-- local u_1 of fn st_weno. -/
def weno_u1 (u : List ℚ) (dx : ℚ) (i : ℕ) : ℚ :=
  1 / 3 * weno_d1l u dx (i - 2) - 7 / 6 * weno_d1l u dx (i - 1) + 11 / 6 * weno_d1l u dx i

/-- local u_2 of fn st_weno. -/
def weno_u2 (u : List ℚ) (dx : ℚ) (i : ℕ) : ℚ :=
  -1 / 6 * weno_d1l u dx (i - 1) + 5 / 6 * weno_d1l u dx i + 1 / 3 * weno_d1l u dx (i + 1)

/-- local u_3 of fn st_weno. -/
def weno_u3 (u : List ℚ) (dx : ℚ) (i : ℕ) : ℚ :=
  1 / 3 * weno_d1l u dx i + 5 / 6 * weno_d1l u dx (i + 1) - 1 / 6 * weno_d1l u dx (i + 2)

/-- local s_1 of fn st_weno (smoothness indicator). -/
def weno_s1 (u : List ℚ) (dx : ℚ) (i : ℕ) : ℚ :=
  13 / 12 * (weno_d1l u dx (i - 2) - 2 * weno_d1l u dx (i - 1) + weno_d1l u dx i) ^ 2
    + 1 / 4 * (weno_d1l u dx (i - 2) - 4 * weno_d1l u dx (i - 1) + 3 * weno_d1l u dx i) ^ 2

/-- local s_2 of fn st_weno (smoothness indicator). -/
def weno_s2 (u : List ℚ) (dx : ℚ) (i : ℕ) : ℚ :=
  13 / 12 * (weno_d1l u dx (i - 1) - 2 * weno_d1l u dx i + weno_d1l u dx (i + 1)) ^ 2
    + 1 / 4 * (weno_d1l u dx (i - 1) - weno_d1l u dx (i + 1)) ^ 2

/-- local s_3 of fn st_weno (smoothness indicator). -/
def weno_s3 (u : List ℚ) (dx : ℚ) (i : ℕ) : ℚ :=
  13 / 12 * (weno_d1l u dx i - 2 * weno_d1l u dx (i + 1) + weno_d1l u dx (i + 2)) ^ 2
    + 1 / 4 * (3 * weno_d1l u dx i - 4 * weno_d1l u dx (i + 1) + weno_d1l u dx (i + 2)) ^ 2

/-- local a_1 of fn st_weno (unnormalized weight). -/
def weno_a1 (u : List ℚ) (dx : ℚ) (i : ℕ) : ℚ := 0.1 / (weno_s1 u dx i + 1e-6) ^ 2

/-- local a_2 of fn st_weno (unnormalized weight). -/
def weno_a2 (u : List ℚ) (dx : ℚ) (i : ℕ) : ℚ := 0.6 / (weno_s2 u dx i + 1e-6) ^ 2

/-- local a_3 of fn st_weno (unnormalized weight). -/
def weno_a3 (u : List ℚ) (dx : ℚ) (i : ℕ) : ℚ := 0.3 / (weno_s3 u dx i + 1e-6) ^ 2

/-- local w_1 of fn st_weno (normalized weight). -/
def weno_w1 (u : List ℚ) (dx : ℚ) (i : ℕ) : ℚ :=
  weno_a1 u dx i / (weno_a1 u dx i + weno_a2 u dx i + weno_a3 u dx i)

/-- local w_2 of fn st_weno (normalized weight). -/
def weno_w2 (u : List ℚ) (dx : ℚ) (i : ℕ) : ℚ :=
  weno_a2 u dx i / (weno_a1 u dx i + weno_a2 u dx i + weno_a3 u dx i)

/-- local w_3 of fn st_weno (normalized weight). -/
def weno_w3 (u : List ℚ) (dx : ℚ) (i : ℕ) : ℚ :=
  weno_a3 u dx i / (weno_a1 u dx i + weno_a2 u dx i + weno_a3 u dx i)

/-- fn st_weno. -/
def st_weno (i : ℕ) (u : List ℚ) (desc : Descriptor) : ℚ :=
  if 3 ≤ i ∧ i < u.length - 3 then
    let dx := desc.delta_x
    let p := -desc.vel * desc.delta_t
    (weno_w1 u dx i * weno_u1 u dx i + weno_w2 u dx i * weno_u2 u dx i
      + weno_w3 u dx i * weno_u3 u dx i) * p
  else
    0

/-- fn st_cip: per-node pair (f_u, f_g). -/
def st_cip (i : ℕ) (u : List ℚ) (g : List ℚ) (desc : Descriptor) : ℚ × ℚ :=
  if 1 ≤ i ∧ i < u.length then
    let dx := desc.delta_x
    let a := (g.getD i 0 + g.getD (i - 1) 0) / dx ^ 2
      - 2 * (u.getD i 0 - u.getD (i - 1) 0) / dx ^ 3
    let b := 3 * (u.getD (i - 1) 0 - u.getD i 0) / dx ^ 2
      + (2 * g.getD i 0 + g.getD (i - 1) 0) / dx
    let c := g.getD i 0
    let p := -desc.vel * desc.delta_t
    let f_u := a * p ^ 3 + b * p ^ 2 + c * p
    let f_g := 3 * a * p ^ 2 + 2 * b * p + c
    (f_u, f_g)
  else
    (0, 0)

/-- fn tt_forward_euler. -/
def tt_forward_euler (u : List ℚ) (st : ℕ → List ℚ → Descriptor → ℚ)
    (desc : Descriptor) : List ℚ :=
  (List.range u.length).foldl (fun u_suc i => u_suc.set i (u.getD i 0 + st i u desc)) u

/-- fn tt_rk2. -/
def tt_rk2 (u_0 : List ℚ) (st : ℕ → List ℚ → Descriptor → ℚ)
    (desc : Descriptor) : List ℚ :=
  let u_1 := (List.range u_0.length).foldl
    (fun u_1 i => u_1.set i (u_0.getD i 0 + st i u_0 desc)) u_0
  let u_2 := (List.range u_0.length).foldl
    (fun u_2 i => u_2.set i ((2 * u_0.getD i 0 + st i u_0 desc + st i u_1 desc) / 2)) u_0
  u_2

/-- fn tt_rk3. -/
def tt_rk3 (u_0 : List ℚ) (st : ℕ → List ℚ → Descriptor → ℚ)
    (desc : Descriptor) : List ℚ :=
  let u_1 := (List.range u_0.length).foldl
    (fun u_1 i => u_1.set i (u_0.getD i 0 + st i u_0 desc)) u_0
  let u_2 := (List.range u_0.length).foldl
    (fun u_2 i => u_2.set i ((4 * u_0.getD i 0 + st i u_0 desc + st i u_1 desc) / 4)) u_0
  let u_3 := (List.range u_0.length).foldl
    (fun u_3 i => u_3.set i ((6 * u_0.getD i 0 + 1 * st i u_0 desc + 1 * st i u_1 desc
      + 4 * st i u_2 desc) / 6)) u_0
  u_3

/-- fn tt_rk4. -/
def tt_rk4 (u_0 : List ℚ) (st : ℕ → List ℚ → Descriptor → ℚ)
    (desc : Descriptor) : List ℚ :=
  let u_1 := (List.range u_0.length).foldl
    (fun u_1 i => u_1.set i (u_0.getD i 0 + st i u_0 desc)) u_0
  let u_01 := (List.range u_0.length).foldl
    (fun u_01 i => u_01.set i ((u_0.getD i 0 + u_1.getD i 0) / 2)) u_0
  let u_2 := (List.range u_0.length).foldl
    (fun u_2 i => u_2.set i (u_0.getD i 0 + st i u_01 desc)) u_0
  let u_02 := (List.range u_0.length).foldl
    (fun u_02 i => u_02.set i ((u_0.getD i 0 + u_2.getD i 0) / 2)) u_0
  let u_3 := (List.range u_0.length).foldl
    (fun u_3 i => u_3.set i (u_0.getD i 0 + st i u_02 desc)) u_0
  let u_4 := (List.range u_0.length).foldl
    (fun u_4 i => u_4.set i (u_0.getD i 0 + st i u_3 desc)) u_0
  let u_suc := (List.range u_0.length).foldl
    (fun u_suc i => u_suc.set i ((u_1.getD i 0 + 2 * u_2.getD i 0 + 2 * u_3.getD i 0
      + u_4.getD i 0) / 6)) u_0
  u_suc

/-- fn tt_tvd_rk2. -/
def tt_tvd_rk2 (u_0 : List ℚ) (st : ℕ → List ℚ → Descriptor → ℚ)
    (desc : Descriptor) : List ℚ :=
  let u_1 := (List.range u_0.length).foldl
    (fun u_1 i => u_1.set i (u_0.getD i 0 + st i u_0 desc)) u_0
  let u_2 := (List.range u_0.length).foldl
    (fun u_2 i => u_2.set i ((u_0.getD i 0 + u_1.getD i 0 + st i u_1 desc) / 2)) u_0
  u_2

/-- fn tt_tvd_rk3. -/
def tt_tvd_rk3 (u_0 : List ℚ) (st : ℕ → List ℚ → Descriptor → ℚ)
    (desc : Descriptor) : List ℚ :=
  let u_1 := (List.range u_0.length).foldl
    (fun u_1 i => u_1.set i (u_0.getD i 0 + st i u_0 desc)) u_0
  let u_2 := (List.range u_0.length).foldl
    (fun u_2 i => u_2.set i ((3 * u_0.getD i 0 + u_1.getD i 0 + st i u_1 desc) / 4)) u_0
  let u_3 := (List.range u_0.length).foldl
    (fun u_3 i => u_3.set i ((u_0.getD i 0 + 2 * u_2.getD i 0 + 2 * st i u_2 desc) / 3)) u_0
  u_3

/-- fn tt_tvd_rk4. -/
def tt_tvd_rk4 (u_0 : List ℚ) (st : ℕ → List ℚ → Descriptor → ℚ)
    (desc : Descriptor) : List ℚ :=
  let u_1 := (List.range u_0.length).foldl
    (fun u_1 i => u_1.set i ((2 * u_0.getD i 0 + st i u_0 desc) / 2)) u_0
  let u_2 := (List.range u_0.length).foldl
    (fun u_2 i => u_2.set i ((2 * u_0.getD i 0 - st i u_0 desc + 2 * u_1.getD i 0
      + 2 * st i u_1 desc) / 4)) u_0
  let u_3 := (List.range u_0.length).foldl
    (fun u_3 i => u_3.set i ((u_0.getD i 0 - st i u_0 desc + 2 * u_1.getD i 0
      - 3 * st i u_1 desc + 6 * u_2.getD i 0 + 9 * st i u_2 desc) / 9)) u_0
  let u_4 := (List.range u_0.length).foldl
    (fun u_4 i => u_4.set i ((2 * u_1.getD i 0 + st i u_1 desc + 2 * u_2.getD i 0
      + 2 * u_3.getD i 0 + st i u_3 desc) / 6)) u_0
  u_4

/-- the spatial-scheme dispatch table of Scenario::forward (the inner match
that selects st); the CIP row is the source's unreachable arm, modelled in
the total layer as the zero function and in the Chk layer as failure. -/
def st_of (sch : SpatialScheme) : ℕ → List ℚ → Descriptor → ℚ :=
  match sch with
  | SpatialScheme.Central => st_central
  | SpatialScheme.Upwind => st_upwind
  | SpatialScheme.LaxWendroff => st_lax_wendroff
  | SpatialScheme.ENO => st_eno
  | SpatialScheme.WENO => st_weno
  | SpatialScheme.CIP => fun _ _ _ => 0

/-- the temporal-scheme dispatch table of Scenario::forward. -/
def tt_of (tsch : TemporalScheme) :
    List ℚ → (ℕ → List ℚ → Descriptor → ℚ) → Descriptor → List ℚ :=
  match tsch with
  | TemporalScheme.ForwardEuler => tt_forward_euler
  | TemporalScheme.Rk2 => tt_rk2
  | TemporalScheme.Rk3 => tt_rk3
  | TemporalScheme.Rk4 => tt_rk4
  | TemporalScheme.TvdRk2 => tt_tvd_rk2
  | TemporalScheme.TvdRk3 => tt_tvd_rk3
  | TemporalScheme.TvdRk4 => tt_tvd_rk4

/-- Scenario::forward.  The (CIP, None) pairing is the source's
unreachable arm; the total layer leaves the state unchanged there, and the
Chk layer below records it as a failure. -/
def Scenario.forward (s : Scenario) : Scenario :=
  match s.desc.spatial_scheme, s.scheme_buffer with
  | SpatialScheme.CIP, SchemeBuffer.CIP g_grid =>
    let u := s.u_grid
    let g := g_grid
    let ug := (List.range u.length).foldl
      (fun (ug : List ℚ × List ℚ) i =>
        (ug.1.set i (u.getD i 0 + (st_cip i u g s.desc).1),
         ug.2.set i (st_cip i u g s.desc).2)) (u, g)
    ⟨s.desc, ug.1, SchemeBuffer.CIP ug.2⟩
  | SpatialScheme.CIP, SchemeBuffer.None => s
  | sch, _ =>
    ⟨s.desc, tt_of s.desc.temporal_scheme s.u_grid (st_of sch) s.desc, s.scheme_buffer⟩

/-- fn st_forward, checked layer: every slice read may fail. -/
def st_forwardChk (i : ℕ) (u : List ℚ) (desc : Descriptor) : Option ℚ :=
  if 0 ≤ i ∧ i < u.length - 1 then do
    let dx := desc.delta_x
    let p := -desc.vel * desc.delta_t
    let a ← u[i + 1]?
    let b ← u[i]?
    pure ((a - b) / dx * p)
  else
    pure 0

/-- fn st_backward, checked layer. -/
def st_backwardChk (i : ℕ) (u : List ℚ) (desc : Descriptor) : Option ℚ :=
  if 1 ≤ i ∧ i < u.length then do
    let dx := desc.delta_x
    let p := -desc.vel * desc.delta_t
    let a ← u[i]?
    let b ← u[i - 1]?
    pure ((a - b) / dx * p)
  else
    pure 0

/-- fn st_central, checked layer. -/
def st_centralChk (i : ℕ) (u : List ℚ) (desc : Descriptor) : Option ℚ :=
  if 1 ≤ i ∧ i < u.length - 1 then do
    let dx := desc.delta_x
    let p := -desc.vel * desc.delta_t
    let a ← u[i + 1]?
    let b ← u[i - 1]?
    pure ((a - b) / (2 * dx) * p)
  else
    pure 0

/-- fn st_upwind, checked layer. -/
def st_upwindChk (i : ℕ) (u : List ℚ) (desc : Descriptor) : Option ℚ :=
  if 0 ≤ desc.vel then
    st_backwardChk i u desc
  else
    st_forwardChk i u desc

/-- fn st_lax_wendroff, checked layer. -/
def st_lax_wendroffChk (i : ℕ) (u : List ℚ) (desc : Descriptor) : Option ℚ :=
  if 1 ≤ i ∧ i < u.length - 1 then do
    let dx := desc.delta_x
    let p := -desc.vel * desc.delta_t
    let a ← u[i + 1]?
    let b ← u[i]?
    let c ← u[i - 1]?
    pure ((a - c) / (2 * dx) * p + (a - 2 * b + c) / (2 * dx * dx) * p * p)
  else
    pure 0

/-- the closure d_1h of fn st_eno, checked layer. -/
def eno_d1hChk (u : List ℚ) (dx : ℚ) (i : ℕ) : Option ℚ := do
  let a ← u[i + 1]?
  let b ← u[i]?
  pure ((a - b) / dx)

/-- the closure d_2m of fn st_eno, checked layer. -/
def eno_d2mChk (u : List ℚ) (dx : ℚ) (i : ℕ) : Option ℚ := do
  let a ← eno_d1hChk u dx i
  let b ← eno_d1hChk u dx (i - 1)
  pure ((a - b) / (2 * dx))

/-- the closure d_3h of fn st_eno, checked layer. -/
def eno_d3hChk (u : List ℚ) (dx : ℚ) (i : ℕ) : Option ℚ := do
  let a ← eno_d2mChk u dx (i + 1)
  let b ← eno_d2mChk u dx i
  pure ((a - b) / (3 * dx))

/-- fn st_eno, checked layer.  The q branches read under their selection
booleans; the checked layer performs the union of the reads the branches
can make (all of u at i-3 ..= i+2, in bounds under the guard exactly when
every branch's own reads are), then selects among the same four
closed-form expressions. -/
def st_enoChk (i : ℕ) (u : List ℚ) (desc : Descriptor) : Option ℚ :=
  if 3 ≤ i ∧ i < u.length - 3 then do
    let dx := desc.delta_x
    let b_1 := 0 ≤ desc.vel
    let k := if b_1 then i - 1 else i
    let d2k1 ← eno_d2mChk u dx (k + 1)
    let d2k ← eno_d2mChk u dx k
    let b_2 := 0 ≤ |d2k1| - |d2k|
    let l := if b_2 then k - 1 else k
    let d3l1 ← eno_d3hChk u dx (l + 1)
    let d3l ← eno_d3hChk u dx l
    let b_3 := 0 ≤ |d3l1| - |d3l|
    let um3 ← u[i - 3]?
    let um2 ← u[i - 2]?
    let um1 ← u[i - 1]?
    let u0 ← u[i]?
    let up1 ← u[i + 1]?
    let up2 ← u[i + 2]?
    let q_1 := (u0 - um1) / dx
    let q_2 :=
      if b_2 then
        (u0 - 2 * um1 + um2) / (2 * dx)
      else
        (up1 - 2 * u0 + um1) / (2 * dx)
    let q_3 :=
      if b_2 ∧ b_3 then
        (u0 - 3 * um1 + 3 * um2 - um3) / (3 * dx)
      else if b_2 ∧ ¬b_3 then
        (up1 - 3 * u0 + 3 * um1 - um2) / (3 * dx)
      else if ¬b_2 ∧ b_3 then
        (up1 - 3 * u0 + 3 * um1 - um2) / (-6 * dx)
      else
        (up2 - 3 * up1 + 3 * u0 - um1) / (-6 * dx)
    let p := -desc.vel * desc.delta_t
    pure ((q_1 + q_2 + q_3) * p)
  else
    pure 0

/-- the closure d_1l of fn st_weno, checked layer. -/
def weno_d1lChk (u : List ℚ) (dx : ℚ) (i : ℕ) : Option ℚ := do
  let a ← u[i]?
  let b ← u[i - 1]?
  pure ((a - b) / dx)

/-- fn st_weno, checked layer. -/
def st_wenoChk (i : ℕ) (u : List ℚ) (desc : Descriptor) : Option ℚ :=
  if 3 ≤ i ∧ i < u.length - 3 then do
    let dx := desc.delta_x
    let dm2 ← weno_d1lChk u dx (i - 2)
    let dm1 ← weno_d1lChk u dx (i - 1)
    let d0 ← weno_d1lChk u dx i
    let dp1 ← weno_d1lChk u dx (i + 1)
    let dp2 ← weno_d1lChk u dx (i + 2)
    let u_1 := 1 / 3 * dm2 - 7 / 6 * dm1 + 11 / 6 * d0
    let u_2 := -1 / 6 * dm1 + 5 / 6 * d0 + 1 / 3 * dp1
    let u_3 := 1 / 3 * d0 + 5 / 6 * dp1 - 1 / 6 * dp2
    let s_1 := 13 / 12 * (dm2 - 2 * dm1 + d0) ^ 2 + 1 / 4 * (dm2 - 4 * dm1 + 3 * d0) ^ 2
    let s_2 := 13 / 12 * (dm1 - 2 * d0 + dp1) ^ 2 + 1 / 4 * (dm1 - dp1) ^ 2
    let s_3 := 13 / 12 * (d0 - 2 * dp1 + dp2) ^ 2 + 1 / 4 * (3 * d0 - 4 * dp1 + dp2) ^ 2
    let a_1 := 0.1 / (s_1 + 1e-6) ^ 2
    let a_2 := 0.6 / (s_2 + 1e-6) ^ 2
    let a_3 := 0.3 / (s_3 + 1e-6) ^ 2
    let w_1 := a_1 / (a_1 + a_2 + a_3)
    let w_2 := a_2 / (a_1 + a_2 + a_3)
    let w_3 := a_3 / (a_1 + a_2 + a_3)
    let p := -desc.vel * desc.delta_t
    pure ((w_1 * u_1 + w_2 * u_2 + w_3 * u_3) * p)
  else
    pure 0

/-- fn st_cip, checked layer. -/
def st_cipChk (i : ℕ) (u : List ℚ) (g : List ℚ) (desc : Descriptor) : Option (ℚ × ℚ) :=
  if 1 ≤ i ∧ i < u.length then do
    let dx := desc.delta_x
    let gi ← g[i]?
    let gm ← g[i - 1]?
    let ui ← u[i]?
    let um ← u[i - 1]?
    let a := (gi + gm) / dx ^ 2 - 2 * (ui - um) / dx ^ 3
    let b := 3 * (um - ui) / dx ^ 2 + (2 * gi + gm) / dx
    let c := gi
    let p := -desc.vel * desc.delta_t
    pure (a * p ^ 3 + b * p ^ 2 + c * p, 3 * a * p ^ 2 + 2 * b * p + c)
  else
    pure (0, 0)

/-- fn tt_forward_euler, checked layer. -/
def tt_forward_eulerChk (u : List ℚ) (st : ℕ → List ℚ → Descriptor → Option ℚ)
    (desc : Descriptor) : Option (List ℚ) :=
  (List.range u.length).foldlM (fun u_suc i => do
    let a ← u[i]?
    let d ← st i u desc
    pure (u_suc.set i (a + d))) u

/-- fn tt_rk2, checked layer. -/
def tt_rk2Chk (u_0 : List ℚ) (st : ℕ → List ℚ → Descriptor → Option ℚ)
    (desc : Descriptor) : Option (List ℚ) := do
  let u_1 ← (List.range u_0.length).foldlM (fun u_1 i => do
    let a ← u_0[i]?
    let d ← st i u_0 desc
    pure (u_1.set i (a + d))) u_0
  let u_2 ← (List.range u_0.length).foldlM (fun u_2 i => do
    let a ← u_0[i]?
    let d0 ← st i u_0 desc
    let d1 ← st i u_1 desc
    pure (u_2.set i ((2 * a + d0 + d1) / 2))) u_0
  pure u_2

/-- fn tt_rk3, checked layer. -/
def tt_rk3Chk (u_0 : List ℚ) (st : ℕ → List ℚ → Descriptor → Option ℚ)
    (desc : Descriptor) : Option (List ℚ) := do
  let u_1 ← (List.range u_0.length).foldlM (fun u_1 i => do
    let a ← u_0[i]?
    let d ← st i u_0 desc
    pure (u_1.set i (a + d))) u_0
  let u_2 ← (List.range u_0.length).foldlM (fun u_2 i => do
    let a ← u_0[i]?
    let d0 ← st i u_0 desc
    let d1 ← st i u_1 desc
    pure (u_2.set i ((4 * a + d0 + d1) / 4))) u_0
  let u_3 ← (List.range u_0.length).foldlM (fun u_3 i => do
    let a ← u_0[i]?
    let d0 ← st i u_0 desc
    let d1 ← st i u_1 desc
    let d2 ← st i u_2 desc
    pure (u_3.set i ((6 * a + 1 * d0 + 1 * d1 + 4 * d2) / 6))) u_0
  pure u_3

/-- fn tt_rk4, checked layer. -/
def tt_rk4Chk (u_0 : List ℚ) (st : ℕ → List ℚ → Descriptor → Option ℚ)
    (desc : Descriptor) : Option (List ℚ) := do
  let u_1 ← (List.range u_0.length).foldlM (fun u_1 i => do
    let a ← u_0[i]?
    let d ← st i u_0 desc
    pure (u_1.set i (a + d))) u_0
  let u_01 ← (List.range u_0.length).foldlM (fun u_01 i => do
    let a ← u_0[i]?
    let b ← u_1[i]?
    pure (u_01.set i ((a + b) / 2))) u_0
  let u_2 ← (List.range u_0.length).foldlM (fun u_2 i => do
    let a ← u_0[i]?
    let d ← st i u_01 desc
    pure (u_2.set i (a + d))) u_0
  let u_02 ← (List.range u_0.length).foldlM (fun u_02 i => do
    let a ← u_0[i]?
    let b ← u_2[i]?
    pure (u_02.set i ((a + b) / 2))) u_0
  let u_3 ← (List.range u_0.length).foldlM (fun u_3 i => do
    let a ← u_0[i]?
    let d ← st i u_02 desc
    pure (u_3.set i (a + d))) u_0
  let u_4 ← (List.range u_0.length).foldlM (fun u_4 i => do
    let a ← u_0[i]?
    let d ← st i u_3 desc
    pure (u_4.set i (a + d))) u_0
  let u_suc ← (List.range u_0.length).foldlM (fun u_suc i => do
    let a ← u_1[i]?
    let b ← u_2[i]?
    let c ← u_3[i]?
    let d ← u_4[i]?
    pure (u_suc.set i ((a + 2 * b + 2 * c + d) / 6))) u_0
  pure u_suc

/-- fn tt_tvd_rk2, checked layer. -/
def tt_tvd_rk2Chk (u_0 : List ℚ) (st : ℕ → List ℚ → Descriptor → Option ℚ)
    (desc : Descriptor) : Option (List ℚ) := do
  let u_1 ← (List.range u_0.length).foldlM (fun u_1 i => do
    let a ← u_0[i]?
    let d ← st i u_0 desc
    pure (u_1.set i (a + d))) u_0
  let u_2 ← (List.range u_0.length).foldlM (fun u_2 i => do
    let a ← u_0[i]?
    let b ← u_1[i]?
    let d1 ← st i u_1 desc
    pure (u_2.set i ((a + b + d1) / 2))) u_0
  pure u_2

/-- fn tt_tvd_rk3, checked layer. -/
def tt_tvd_rk3Chk (u_0 : List ℚ) (st : ℕ → List ℚ → Descriptor → Option ℚ)
    (desc : Descriptor) : Option (List ℚ) := do
  let u_1 ← (List.range u_0.length).foldlM (fun u_1 i => do
    let a ← u_0[i]?
    let d ← st i u_0 desc
    pure (u_1.set i (a + d))) u_0
  let u_2 ← (List.range u_0.length).foldlM (fun u_2 i => do
    let a ← u_0[i]?
    let b ← u_1[i]?
    let d1 ← st i u_1 desc
    pure (u_2.set i ((3 * a + b + d1) / 4))) u_0
  let u_3 ← (List.range u_0.length).foldlM (fun u_3 i => do
    let a ← u_0[i]?
    let b ← u_2[i]?
    let d2 ← st i u_2 desc
    pure (u_3.set i ((a + 2 * b + 2 * d2) / 3))) u_0
  pure u_3

/-- fn tt_tvd_rk4, checked layer. -/
def tt_tvd_rk4Chk (u_0 : List ℚ) (st : ℕ → List ℚ → Descriptor → Option ℚ)
    (desc : Descriptor) : Option (List ℚ) := do
  let u_1 ← (List.range u_0.length).foldlM (fun u_1 i => do
    let a ← u_0[i]?
    let d ← st i u_0 desc
    pure (u_1.set i ((2 * a + d) / 2))) u_0
  let u_2 ← (List.range u_0.length).foldlM (fun u_2 i => do
    let a ← u_0[i]?
    let b ← u_1[i]?
    let d0 ← st i u_0 desc
    let d1 ← st i u_1 desc
    pure (u_2.set i ((2 * a - d0 + 2 * b + 2 * d1) / 4))) u_0
  let u_3 ← (List.range u_0.length).foldlM (fun u_3 i => do
    let a ← u_0[i]?
    let b ← u_1[i]?
    let c ← u_2[i]?
    let d0 ← st i u_0 desc
    let d1 ← st i u_1 desc
    let d2 ← st i u_2 desc
    pure (u_3.set i ((a - d0 + 2 * b - 3 * d1 + 6 * c + 9 * d2) / 9))) u_0
  let u_4 ← (List.range u_0.length).foldlM (fun u_4 i => do
    let b ← u_1[i]?
    let c ← u_2[i]?
    let e ← u_3[i]?
    let d1 ← st i u_1 desc
    let d3 ← st i u_3 desc
    pure (u_4.set i ((2 * b + d1 + 2 * c + 2 * e + d3) / 6))) u_0
  pure u_4

/-- the spatial dispatch table, checked layer; the CIP row is the source's
unreachable arm and fails. -/
def st_ofChk (sch : SpatialScheme) : ℕ → List ℚ → Descriptor → Option ℚ :=
  match sch with
  | SpatialScheme.Central => st_centralChk
  | SpatialScheme.Upwind => st_upwindChk
  | SpatialScheme.LaxWendroff => st_lax_wendroffChk
  | SpatialScheme.ENO => st_enoChk
  | SpatialScheme.WENO => st_wenoChk
  | SpatialScheme.CIP => fun _ _ _ => none

/-- the temporal dispatch table, checked layer. -/
def tt_ofChk (tsch : TemporalScheme) :
    List ℚ → (ℕ → List ℚ → Descriptor → Option ℚ) → Descriptor → Option (List ℚ) :=
  match tsch with
  | TemporalScheme.ForwardEuler => tt_forward_eulerChk
  | TemporalScheme.Rk2 => tt_rk2Chk
  | TemporalScheme.Rk3 => tt_rk3Chk
  | TemporalScheme.Rk4 => tt_rk4Chk
  | TemporalScheme.TvdRk2 => tt_tvd_rk2Chk
  | TemporalScheme.TvdRk3 => tt_tvd_rk3Chk
  | TemporalScheme.TvdRk4 => tt_tvd_rk4Chk

/-- Scenario::forward, checked layer: out-of-bounds reads and the two
unreachable dispatch arms are failures. -/
def Scenario.forwardChk (s : Scenario) : Option Scenario :=
  match s.desc.spatial_scheme, s.scheme_buffer with
  | SpatialScheme.CIP, SchemeBuffer.CIP g_grid =>
    let u := s.u_grid
    let g := g_grid
    do
      let ug ← (List.range u.length).foldlM
        (fun (ug : List ℚ × List ℚ) i => do
          let fg ← st_cipChk i u g s.desc
          let a ← u[i]?
          pure (ug.1.set i (a + fg.1), ug.2.set i fg.2)) (u, g)
      pure ⟨s.desc, ug.1, SchemeBuffer.CIP ug.2⟩
  | SpatialScheme.CIP, SchemeBuffer.None => none
  | sch, _ => do
    let u ← tt_ofChk s.desc.temporal_scheme s.u_grid (st_ofChk sch) s.desc
    pure ⟨s.desc, u, s.scheme_buffer⟩

/-- iterate the checked step k times, propagating failure. -/
def forwardRepeatChk : ℕ → Scenario → Option Scenario
  | 0, s => some s
  | k + 1, s => (Scenario.forwardChk s).bind (forwardRepeatChk k)

/-- the g field of the CIP buffer (empty for the Base buffer); a reading
projection used only to state theorems. -/
def cipGrid (s : Scenario) : List ℚ :=
  match s.scheme_buffer with
  | SchemeBuffer.CIP g => g
  | SchemeBuffer.None => []

/-- coherence of buffer variant and scheme, the invariant Scenario::new
establishes: a CIP scheme owns a CIP buffer of the field's length. -/
def BufferInv (s : Scenario) : Prop :=
  s.desc.spatial_scheme = SpatialScheme.CIP →
    ∃ g, s.scheme_buffer = SchemeBuffer.CIP g ∧ g.length = s.u_grid.length

/-- a concrete field of 8 nodes, used to instantiate universally quantified
statements at the spec's n = 8 scenario. -/
def uTest8 : List ℚ := [0, 0, 0, 1, 0, 0, 0, 0]

/-- the concrete descriptor of the spec's v = 0 scenario
(delta_x = 0.1, bound = 1.0, vel = 0, Central, forward Euler). -/
def descCentralZero : Descriptor :=
  ⟨1, 0.01, 0.1, 1.0, 0, SpatialScheme.Central, TemporalScheme.ForwardEuler⟩

/-- a CIP descriptor with delta_t = 0 (three grid nodes). -/
def descCIPdt0 : Descriptor :=
  ⟨1, 0, 1, 3, 1, SpatialScheme.CIP, TemporalScheme.ForwardEuler⟩

/-- a CIP descriptor with three grid nodes. -/
def descCIP : Descriptor :=
  ⟨1, 1, 1, 3, 1, SpatialScheme.CIP, TemporalScheme.ForwardEuler⟩

/-- an Upwind descriptor with negative velocity. -/
def descUpwindNeg : Descriptor :=
  ⟨1, 1, 1, 10, -1, SpatialScheme.Upwind, TemporalScheme.ForwardEuler⟩

/-! General lemmas about the loop encodings. -/

theorem foldl_set_length {α : Type} (f : ℕ → α) :
    ∀ (l : List ℕ) (init : List α),
      (l.foldl (fun acc i => acc.set i (f i)) init).length = init.length := by
  intro l
  induction l with
  | nil => intro init; rfl
  | cons a l ih =>
    intro init
    simpa [List.foldl_cons] using ih (init.set a (f a))

theorem foldl_set_range'_getElem? {α : Type} (f : ℕ → α) :
    ∀ (n s : ℕ) (init : List α) (j : ℕ),
      ((List.range' s n).foldl (fun acc i => acc.set i (f i)) init)[j]? =
        if s ≤ j ∧ j < s + n ∧ j < init.length then some (f j) else init[j]? := by
  intro n
  induction n with
  | zero =>
    intro s init j
    rw [if_neg (by omega)]
    rfl
  | succ n ih =>
    intro s init j
    rw [List.range'_succ, List.foldl_cons, ih (s + 1) (init.set s (f s)) j]
    by_cases hj : j = s
    · subst hj
      rw [if_neg (by omega)]
      by_cases hlen : j < init.length
      · rw [if_pos ⟨Nat.le_refl j, by omega, hlen⟩]
        exact List.getElem?_set_self hlen
      · rw [if_neg (fun h => hlen h.2.2), List.set_eq_of_length_le (by omega)]
    · rw [List.getElem?_set_ne (fun h => hj h.symm), List.length_set]
      by_cases hc : s ≤ j ∧ j < s + (n + 1) ∧ j < init.length
      · rw [if_pos hc, if_pos (by omega)]
      · rw [if_neg hc, if_neg (by omega)]

theorem foldl_set_range_getElem? {α : Type} (f : ℕ → α) (n : ℕ) (init : List α) (j : ℕ) :
    ((List.range n).foldl (fun acc i => acc.set i (f i)) init)[j]? =
      if j < n ∧ j < init.length then some (f j) else init[j]? := by
  rw [List.range_eq_range', foldl_set_range'_getElem?]
  by_cases hc : j < n ∧ j < init.length
  · rw [if_pos (by omega), if_pos hc]
  · rw [if_neg (by omega), if_neg hc]

theorem foldl_set_range_eq_map {α : Type} (f : ℕ → α) (init : List α) :
    (List.range init.length).foldl (fun acc i => acc.set i (f i)) init =
      (List.range init.length).map f := by
  apply List.ext_getElem?
  intro j
  rw [foldl_set_range_getElem?, List.getElem?_map]
  by_cases hj : j < init.length
  · rw [if_pos ⟨hj, hj⟩, List.getElem?_range hj]
    rfl
  · rw [if_neg (by omega), List.getElem?_eq_none (Nat.le_of_not_lt hj),
      List.getElem?_eq_none (by simpa using hj)]
    rfl

theorem foldl_set_range_eq_map' {α : Type} (f : ℕ → α) (n : ℕ) (init : List α)
    (h : n = init.length) :
    (List.range n).foldl (fun acc i => acc.set i (f i)) init = (List.range n).map f := by
  subst h
  exact foldl_set_range_eq_map f init

theorem map_range_getD {α : Type} (f : ℕ → α) (n j : ℕ) (d : α) :
    ((List.range n).map f).getD j d = if j < n then f j else d := by
  rw [List.getD_eq_getElem?_getD, List.getElem?_map]
  by_cases hj : j < n
  · rw [List.getElem?_range hj]
    simp [hj]
  · rw [List.getElem?_eq_none (by simpa using hj)]
    simp [hj]

theorem ext_getD {α : Type} (d : α) (l₁ l₂ : List α) (hlen : l₁.length = l₂.length)
    (h : ∀ j, j < l₁.length → l₁.getD j d = l₂.getD j d) : l₁ = l₂ := by
  apply List.ext_getElem hlen
  intro j h₁ h₂
  have := h j h₁
  rwa [List.getD_eq_getElem?_getD, List.getD_eq_getElem?_getD,
    List.getElem?_eq_getElem h₁, List.getElem?_eq_getElem h₂] at this

theorem foldl_set_pair_split {α : Type} (fu fg : ℕ → α) :
    ∀ (l : List ℕ) (x y : List α),
      (l.foldl (fun (ug : List α × List α) i => (ug.1.set i (fu i), ug.2.set i (fg i))) (x, y)) =
        (l.foldl (fun acc i => acc.set i (fu i)) x, l.foldl (fun acc i => acc.set i (fg i)) y) := by
  intro l
  induction l with
  | nil => intro x y; rfl
  | cons a l ih =>
    intro x y
    simpa [List.foldl_cons] using ih (x.set a (fu a)) (y.set a (fg a))

theorem foldlM_eq_some {σ : Type} (body : σ → ℕ → Option σ) (g : σ → ℕ → σ) :
    ∀ (l : List ℕ) (init : σ), (∀ acc i, i ∈ l → body acc i = some (g acc i)) →
      l.foldlM body init = some (l.foldl g init) := by
  intro l
  induction l with
  | nil => intro init _; rfl
  | cons a l ih =>
    intro init h
    rw [List.foldlM_cons, h init a (List.mem_cons_self a l), List.foldl_cons]
    exact ih (g init a) (fun acc i hi => h acc i (List.mem_cons_of_mem a hi))

theorem getElem?_eq_some_getD {α : Type} (l : List α) (i : ℕ) (d : α) (h : i < l.length) :
    l[i]? = some (l.getD i d) := by
  rw [List.getD_eq_getElem?_getD, List.getElem?_eq_getElem h]
  rfl

/-! Agreement of the checked layer with the total layer: under each
scheme's own guard every slice access is in bounds, so the checked scheme
functions never fail and compute the total values. -/

theorem st_forwardChk_eq (i : ℕ) (u : List ℚ) (desc : Descriptor) :
    st_forwardChk i u desc = some (st_forward i u desc) := by
  unfold st_forwardChk st_forward
  by_cases hg : 0 ≤ i ∧ i < u.length - 1
  · rw [if_pos hg, if_pos hg,
      getElem?_eq_some_getD u (i + 1) 0 (by omega), getElem?_eq_some_getD u i 0 (by omega)]
    rfl
  · rw [if_neg hg, if_neg hg]
    rfl

theorem st_backwardChk_eq (i : ℕ) (u : List ℚ) (desc : Descriptor) :
    st_backwardChk i u desc = some (st_backward i u desc) := by
  unfold st_backwardChk st_backward
  by_cases hg : 1 ≤ i ∧ i < u.length
  · rw [if_pos hg, if_pos hg,
      getElem?_eq_some_getD u i 0 (by omega), getElem?_eq_some_getD u (i - 1) 0 (by omega)]
    rfl
  · rw [if_neg hg, if_neg hg]
    rfl

theorem st_centralChk_eq (i : ℕ) (u : List ℚ) (desc : Descriptor) :
    st_centralChk i u desc = some (st_central i u desc) := by
  unfold st_centralChk st_central
  by_cases hg : 1 ≤ i ∧ i < u.length - 1
  · rw [if_pos hg, if_pos hg,
      getElem?_eq_some_getD u (i + 1) 0 (by omega), getElem?_eq_some_getD u (i - 1) 0 (by omega)]
    rfl
  · rw [if_neg hg, if_neg hg]
    rfl

theorem st_upwindChk_eq (i : ℕ) (u : List ℚ) (desc : Descriptor) :
    st_upwindChk i u desc = some (st_upwind i u desc) := by
  unfold st_upwindChk st_upwind
  by_cases hv : 0 ≤ desc.vel
  · rw [if_pos hv, if_pos hv, st_backwardChk_eq]
  · rw [if_neg hv, if_neg hv, st_forwardChk_eq]

theorem st_lax_wendroffChk_eq (i : ℕ) (u : List ℚ) (desc : Descriptor) :
    st_lax_wendroffChk i u desc = some (st_lax_wendroff i u desc) := by
  unfold st_lax_wendroffChk st_lax_wendroff
  by_cases hg : 1 ≤ i ∧ i < u.length - 1
  · rw [if_pos hg, if_pos hg, getElem?_eq_some_getD u (i + 1) 0 (by omega),
      getElem?_eq_some_getD u i 0 (by omega), getElem?_eq_some_getD u (i - 1) 0 (by omega)]
    rfl
  · rw [if_neg hg, if_neg hg]
    rfl

theorem eno_d1hChk_eq (u : List ℚ) (dx : ℚ) (i : ℕ) (h : i + 1 < u.length) :
    eno_d1hChk u dx i = some (eno_d1h u dx i) := by
  unfold eno_d1hChk eno_d1h
  rw [getElem?_eq_some_getD u (i + 1) 0 h, getElem?_eq_some_getD u i 0 (by omega)]
  rfl

theorem eno_d2mChk_eq (u : List ℚ) (dx : ℚ) (i : ℕ) (h : i + 1 < u.length) :
    eno_d2mChk u dx i = some (eno_d2m u dx i) := by
  unfold eno_d2mChk eno_d2m
  rw [eno_d1hChk_eq u dx i h, eno_d1hChk_eq u dx (i - 1) (by omega)]
  rfl

theorem eno_d3hChk_eq (u : List ℚ) (dx : ℚ) (i : ℕ) (h : i + 2 < u.length) :
    eno_d3hChk u dx i = some (eno_d3h u dx i) := by
  unfold eno_d3hChk eno_d3h
  rw [eno_d2mChk_eq u dx (i + 1) (by omega), eno_d2mChk_eq u dx i (by omega)]
  rfl

theorem st_enoChk_eq (i : ℕ) (u : List ℚ) (desc : Descriptor) :
    st_enoChk i u desc = some (st_eno i u desc) := by
  unfold st_enoChk st_eno
  by_cases hg : 3 ≤ i ∧ i < u.length - 3
  · have hi3 : 3 ≤ i := hg.1
    have hiU : i + 3 < u.length := by omega
    rw [if_pos hg, if_pos hg]
    dsimp only []
    set k := (if 0 ≤ desc.vel then i - 1 else i) with hk_def
    have hk : k ≤ i := by rw [hk_def]; split <;> omega
    rw [eno_d2mChk_eq u desc.delta_x (k + 1) (by omega),
      eno_d2mChk_eq u desc.delta_x k (by omega)]
    simp only [Option.bind_eq_bind, Option.some_bind]
    set l := (if 0 ≤ |eno_d2m u desc.delta_x (k + 1)| - |eno_d2m u desc.delta_x k| then
      k - 1 else k) with hl_def
    have hl : l ≤ i := by rw [hl_def]; split <;> omega
    rw [eno_d3hChk_eq u desc.delta_x (l + 1) (by omega),
      eno_d3hChk_eq u desc.delta_x l (by omega)]
    rw [getElem?_eq_some_getD u (i - 3) 0 (by omega),
      getElem?_eq_some_getD u (i - 2) 0 (by omega),
      getElem?_eq_some_getD u (i - 1) 0 (by omega),
      getElem?_eq_some_getD u i 0 (by omega),
      getElem?_eq_some_getD u (i + 1) 0 (by omega),
      getElem?_eq_some_getD u (i + 2) 0 (by omega)]
    simp only [Option.bind_eq_bind, Option.some_bind, Option.pure_def]
  · rw [if_neg hg, if_neg hg]
    rfl

theorem weno_d1lChk_eq (u : List ℚ) (dx : ℚ) (i : ℕ) (h : i < u.length) :
    weno_d1lChk u dx i = some (weno_d1l u dx i) := by
  unfold weno_d1lChk weno_d1l
  rw [getElem?_eq_some_getD u i 0 h, getElem?_eq_some_getD u (i - 1) 0 (by omega)]
  rfl

theorem st_wenoChk_eq (i : ℕ) (u : List ℚ) (desc : Descriptor) :
    st_wenoChk i u desc = some (st_weno i u desc) := by
  unfold st_wenoChk st_weno
  by_cases hg : 3 ≤ i ∧ i < u.length - 3
  · have hi3 : 3 ≤ i := hg.1
    have hiU : i + 3 < u.length := by omega
    rw [if_pos hg, if_pos hg]
    dsimp only []
    rw [weno_d1lChk_eq u desc.delta_x (i - 2) (by omega),
      weno_d1lChk_eq u desc.delta_x (i - 1) (by omega),
      weno_d1lChk_eq u desc.delta_x i (by omega),
      weno_d1lChk_eq u desc.delta_x (i + 1) (by omega),
      weno_d1lChk_eq u desc.delta_x (i + 2) (by omega)]
    simp only [Option.bind_eq_bind, Option.some_bind, Option.pure_def,
      weno_w1, weno_w2, weno_w3, weno_a1, weno_a2, weno_a3,
      weno_s1, weno_s2, weno_s3, weno_u1, weno_u2, weno_u3]
  · rw [if_neg hg, if_neg hg]
    rfl

theorem st_cipChk_eq (i : ℕ) (u g : List ℚ) (desc : Descriptor)
    (hlen : g.length = u.length) :
    st_cipChk i u g desc = some (st_cip i u g desc) := by
  unfold st_cipChk st_cip
  by_cases hg : 1 ≤ i ∧ i < u.length
  · rw [if_pos hg, if_pos hg,
      getElem?_eq_some_getD g i 0 (by omega), getElem?_eq_some_getD g (i - 1) 0 (by omega),
      getElem?_eq_some_getD u i 0 (by omega), getElem?_eq_some_getD u (i - 1) 0 (by omega)]
    rfl
  · rw [if_neg hg, if_neg hg]
    rfl

theorem bind_eq_some_of {α β : Type} {o : Option α} {f : α → Option β} {a : α} {b : β}
    (h1 : o = some a) (h2 : f a = some b) : o >>= f = some b := by
  rw [h1, Option.bind_eq_bind, Option.some_bind]
  exact h2

theorem tt_forward_eulerChk_eq (u : List ℚ) (stc : ℕ → List ℚ → Descriptor → Option ℚ)
    (st : ℕ → List ℚ → Descriptor → ℚ) (desc : Descriptor)
    (hst : ∀ j v, stc j v desc = some (st j v desc)) :
    tt_forward_eulerChk u stc desc = some (tt_forward_euler u st desc) := by
  unfold tt_forward_eulerChk tt_forward_euler
  apply foldlM_eq_some
  intro acc j hj
  have hju : j < u.length := List.mem_range.mp hj
  rw [getElem?_eq_some_getD u j 0 hju, hst j u]
  rfl

theorem tt_rk2Chk_eq (u_0 : List ℚ) (stc : ℕ → List ℚ → Descriptor → Option ℚ)
    (st : ℕ → List ℚ → Descriptor → ℚ) (desc : Descriptor)
    (hst : ∀ j v, stc j v desc = some (st j v desc)) :
    tt_rk2Chk u_0 stc desc = some (tt_rk2 u_0 st desc) := by
  unfold tt_rk2Chk tt_rk2
  refine bind_eq_some_of (foldlM_eq_some _
    (fun u_1 j => u_1.set j (u_0.getD j 0 + st j u_0 desc)) _ _ ?_) ?_
  · intro acc j hj
    have hju : j < u_0.length := List.mem_range.mp hj
    rw [getElem?_eq_some_getD u_0 j 0 hju, hst j u_0]
    rfl
  dsimp only []
  generalize (List.range u_0.length).foldl
    (fun u_1 j => u_1.set j (u_0.getD j 0 + st j u_0 desc)) u_0 = v
  refine bind_eq_some_of (foldlM_eq_some _
    (fun u_2 j => u_2.set j ((2 * u_0.getD j 0 + st j u_0 desc + st j v desc) / 2)) _ _ ?_) ?_
  · intro acc j hj
    have hju : j < u_0.length := List.mem_range.mp hj
    rw [getElem?_eq_some_getD u_0 j 0 hju, hst j u_0, hst j v]
    rfl
  rfl

theorem tt_rk3Chk_eq (u_0 : List ℚ) (stc : ℕ → List ℚ → Descriptor → Option ℚ)
    (st : ℕ → List ℚ → Descriptor → ℚ) (desc : Descriptor)
    (hst : ∀ j v, stc j v desc = some (st j v desc)) :
    tt_rk3Chk u_0 stc desc = some (tt_rk3 u_0 st desc) := by
  unfold tt_rk3Chk tt_rk3
  refine bind_eq_some_of (foldlM_eq_some _
    (fun u_1 j => u_1.set j (u_0.getD j 0 + st j u_0 desc)) _ _ ?_) ?_
  · intro acc j hj
    have hju : j < u_0.length := List.mem_range.mp hj
    rw [getElem?_eq_some_getD u_0 j 0 hju, hst j u_0]
    rfl
  dsimp only []
  generalize (List.range u_0.length).foldl
    (fun u_1 j => u_1.set j (u_0.getD j 0 + st j u_0 desc)) u_0 = v
  refine bind_eq_some_of (foldlM_eq_some _
    (fun u_2 j => u_2.set j ((4 * u_0.getD j 0 + st j u_0 desc + st j v desc) / 4)) _ _ ?_) ?_
  · intro acc j hj
    have hju : j < u_0.length := List.mem_range.mp hj
    rw [getElem?_eq_some_getD u_0 j 0 hju, hst j u_0, hst j v]
    rfl
  dsimp only []
  generalize (List.range u_0.length).foldl
    (fun u_2 j => u_2.set j ((4 * u_0.getD j 0 + st j u_0 desc + st j v desc) / 4)) u_0 = w
  refine bind_eq_some_of (foldlM_eq_some _
    (fun u_3 j => u_3.set j ((6 * u_0.getD j 0 + 1 * st j u_0 desc + 1 * st j v desc
      + 4 * st j w desc) / 6)) _ _ ?_) ?_
  · intro acc j hj
    have hju : j < u_0.length := List.mem_range.mp hj
    rw [getElem?_eq_some_getD u_0 j 0 hju, hst j u_0, hst j v, hst j w]
    rfl
  rfl

theorem tt_rk4Chk_eq (u_0 : List ℚ) (stc : ℕ → List ℚ → Descriptor → Option ℚ)
    (st : ℕ → List ℚ → Descriptor → ℚ) (desc : Descriptor)
    (hst : ∀ j v, stc j v desc = some (st j v desc)) :
    tt_rk4Chk u_0 stc desc = some (tt_rk4 u_0 st desc) := by
  unfold tt_rk4Chk tt_rk4
  have hlen1 : ((List.range u_0.length).foldl
      (fun u_1 j => u_1.set j (u_0.getD j 0 + st j u_0 desc)) u_0).length = u_0.length :=
    foldl_set_length _ _ _
  refine bind_eq_some_of (foldlM_eq_some _
    (fun u_1 j => u_1.set j (u_0.getD j 0 + st j u_0 desc)) _ _ ?_) ?_
  · intro acc j hj
    have hju : j < u_0.length := List.mem_range.mp hj
    rw [getElem?_eq_some_getD u_0 j 0 hju, hst j u_0]
    rfl
  dsimp only []
  generalize hv1 : (List.range u_0.length).foldl
    (fun u_1 j => u_1.set j (u_0.getD j 0 + st j u_0 desc)) u_0 = v1
  rw [hv1] at hlen1
  refine bind_eq_some_of (foldlM_eq_some _
    (fun u_01 j => u_01.set j ((u_0.getD j 0 + v1.getD j 0) / 2)) _ _ ?_) ?_
  · intro acc j hj
    have hju : j < u_0.length := List.mem_range.mp hj
    rw [getElem?_eq_some_getD u_0 j 0 hju,
      getElem?_eq_some_getD v1 j 0 (by rw [hlen1]; exact hju)]
    rfl
  dsimp only []
  generalize (List.range u_0.length).foldl
    (fun u_01 j => u_01.set j ((u_0.getD j 0 + v1.getD j 0) / 2)) u_0 = v01
  refine bind_eq_some_of (foldlM_eq_some _
    (fun u_2 j => u_2.set j (u_0.getD j 0 + st j v01 desc)) _ _ ?_) ?_
  · intro acc j hj
    have hju : j < u_0.length := List.mem_range.mp hj
    rw [getElem?_eq_some_getD u_0 j 0 hju, hst j v01]
    rfl
  dsimp only []
  have hlen2 : ((List.range u_0.length).foldl
      (fun u_2 j => u_2.set j (u_0.getD j 0 + st j v01 desc)) u_0).length = u_0.length :=
    foldl_set_length _ _ _
  generalize hv2 : (List.range u_0.length).foldl
    (fun u_2 j => u_2.set j (u_0.getD j 0 + st j v01 desc)) u_0 = v2
  rw [hv2] at hlen2
  refine bind_eq_some_of (foldlM_eq_some _
    (fun u_02 j => u_02.set j ((u_0.getD j 0 + v2.getD j 0) / 2)) _ _ ?_) ?_
  · intro acc j hj
    have hju : j < u_0.length := List.mem_range.mp hj
    rw [getElem?_eq_some_getD u_0 j 0 hju,
      getElem?_eq_some_getD v2 j 0 (by rw [hlen2]; exact hju)]
    rfl
  dsimp only []
  generalize (List.range u_0.length).foldl
    (fun u_02 j => u_02.set j ((u_0.getD j 0 + v2.getD j 0) / 2)) u_0 = v02
  refine bind_eq_some_of (foldlM_eq_some _
    (fun u_3 j => u_3.set j (u_0.getD j 0 + st j v02 desc)) _ _ ?_) ?_
  · intro acc j hj
    have hju : j < u_0.length := List.mem_range.mp hj
    rw [getElem?_eq_some_getD u_0 j 0 hju, hst j v02]
    rfl
  dsimp only []
  have hlen3 : ((List.range u_0.length).foldl
      (fun u_3 j => u_3.set j (u_0.getD j 0 + st j v02 desc)) u_0).length = u_0.length :=
    foldl_set_length _ _ _
  generalize hv3 : (List.range u_0.length).foldl
    (fun u_3 j => u_3.set j (u_0.getD j 0 + st j v02 desc)) u_0 = v3
  rw [hv3] at hlen3
  refine bind_eq_some_of (foldlM_eq_some _
    (fun u_4 j => u_4.set j (u_0.getD j 0 + st j v3 desc)) _ _ ?_) ?_
  · intro acc j hj
    have hju : j < u_0.length := List.mem_range.mp hj
    rw [getElem?_eq_some_getD u_0 j 0 hju, hst j v3]
    rfl
  dsimp only []
  have hlen4 : ((List.range u_0.length).foldl
      (fun u_4 j => u_4.set j (u_0.getD j 0 + st j v3 desc)) u_0).length = u_0.length :=
    foldl_set_length _ _ _
  generalize hv4 : (List.range u_0.length).foldl
    (fun u_4 j => u_4.set j (u_0.getD j 0 + st j v3 desc)) u_0 = v4
  rw [hv4] at hlen4
  refine bind_eq_some_of (foldlM_eq_some _
    (fun u_suc j => u_suc.set j ((v1.getD j 0 + 2 * v2.getD j 0 + 2 * v3.getD j 0
      + v4.getD j 0) / 6)) _ _ ?_) ?_
  · intro acc j hj
    have hju : j < u_0.length := List.mem_range.mp hj
    rw [getElem?_eq_some_getD v1 j 0 (by rw [hlen1]; exact hju),
      getElem?_eq_some_getD v2 j 0 (by rw [hlen2]; exact hju),
      getElem?_eq_some_getD v3 j 0 (by rw [hlen3]; exact hju),
      getElem?_eq_some_getD v4 j 0 (by rw [hlen4]; exact hju)]
    rfl
  rfl

theorem tt_tvd_rk2Chk_eq (u_0 : List ℚ) (stc : ℕ → List ℚ → Descriptor → Option ℚ)
    (st : ℕ → List ℚ → Descriptor → ℚ) (desc : Descriptor)
    (hst : ∀ j v, stc j v desc = some (st j v desc)) :
    tt_tvd_rk2Chk u_0 stc desc = some (tt_tvd_rk2 u_0 st desc) := by
  unfold tt_tvd_rk2Chk tt_tvd_rk2
  have hlen1 : ((List.range u_0.length).foldl
      (fun u_1 j => u_1.set j (u_0.getD j 0 + st j u_0 desc)) u_0).length = u_0.length :=
    foldl_set_length _ _ _
  refine bind_eq_some_of (foldlM_eq_some _
    (fun u_1 j => u_1.set j (u_0.getD j 0 + st j u_0 desc)) _ _ ?_) ?_
  · intro acc j hj
    have hju : j < u_0.length := List.mem_range.mp hj
    rw [getElem?_eq_some_getD u_0 j 0 hju, hst j u_0]
    rfl
  dsimp only []
  generalize hv1 : (List.range u_0.length).foldl
    (fun u_1 j => u_1.set j (u_0.getD j 0 + st j u_0 desc)) u_0 = v1
  rw [hv1] at hlen1
  refine bind_eq_some_of (foldlM_eq_some _
    (fun u_2 j => u_2.set j ((u_0.getD j 0 + v1.getD j 0 + st j v1 desc) / 2)) _ _ ?_) ?_
  · intro acc j hj
    have hju : j < u_0.length := List.mem_range.mp hj
    rw [getElem?_eq_some_getD u_0 j 0 hju,
      getElem?_eq_some_getD v1 j 0 (by rw [hlen1]; exact hju), hst j v1]
    rfl
  rfl

theorem tt_tvd_rk3Chk_eq (u_0 : List ℚ) (stc : ℕ → List ℚ → Descriptor → Option ℚ)
    (st : ℕ → List ℚ → Descriptor → ℚ) (desc : Descriptor)
    (hst : ∀ j v, stc j v desc = some (st j v desc)) :
    tt_tvd_rk3Chk u_0 stc desc = some (tt_tvd_rk3 u_0 st desc) := by
  unfold tt_tvd_rk3Chk tt_tvd_rk3
  have hlen1 : ((List.range u_0.length).foldl
      (fun u_1 j => u_1.set j (u_0.getD j 0 + st j u_0 desc)) u_0).length = u_0.length :=
    foldl_set_length _ _ _
  refine bind_eq_some_of (foldlM_eq_some _
    (fun u_1 j => u_1.set j (u_0.getD j 0 + st j u_0 desc)) _ _ ?_) ?_
  · intro acc j hj
    have hju : j < u_0.length := List.mem_range.mp hj
    rw [getElem?_eq_some_getD u_0 j 0 hju, hst j u_0]
    rfl
  dsimp only []
  generalize hv1 : (List.range u_0.length).foldl
    (fun u_1 j => u_1.set j (u_0.getD j 0 + st j u_0 desc)) u_0 = v1
  rw [hv1] at hlen1
  refine bind_eq_some_of (foldlM_eq_some _
    (fun u_2 j => u_2.set j ((3 * u_0.getD j 0 + v1.getD j 0 + st j v1 desc) / 4)) _ _ ?_) ?_
  · intro acc j hj
    have hju : j < u_0.length := List.mem_range.mp hj
    rw [getElem?_eq_some_getD u_0 j 0 hju,
      getElem?_eq_some_getD v1 j 0 (by rw [hlen1]; exact hju), hst j v1]
    rfl
  dsimp only []
  have hlen2 : ((List.range u_0.length).foldl
      (fun u_2 j => u_2.set j ((3 * u_0.getD j 0 + v1.getD j 0 + st j v1 desc) / 4))
      u_0).length = u_0.length :=
    foldl_set_length _ _ _
  generalize hv2 : (List.range u_0.length).foldl
    (fun u_2 j => u_2.set j ((3 * u_0.getD j 0 + v1.getD j 0 + st j v1 desc) / 4)) u_0 = v2
  rw [hv2] at hlen2
  refine bind_eq_some_of (foldlM_eq_some _
    (fun u_3 j => u_3.set j ((u_0.getD j 0 + 2 * v2.getD j 0 + 2 * st j v2 desc) / 3)) _ _ ?_) ?_
  · intro acc j hj
    have hju : j < u_0.length := List.mem_range.mp hj
    rw [getElem?_eq_some_getD u_0 j 0 hju,
      getElem?_eq_some_getD v2 j 0 (by rw [hlen2]; exact hju), hst j v2]
    rfl
  rfl

theorem tt_tvd_rk4Chk_eq (u_0 : List ℚ) (stc : ℕ → List ℚ → Descriptor → Option ℚ)
    (st : ℕ → List ℚ → Descriptor → ℚ) (desc : Descriptor)
    (hst : ∀ j v, stc j v desc = some (st j v desc)) :
    tt_tvd_rk4Chk u_0 stc desc = some (tt_tvd_rk4 u_0 st desc) := by
  unfold tt_tvd_rk4Chk tt_tvd_rk4
  have hlen1 : ((List.range u_0.length).foldl
      (fun u_1 j => u_1.set j ((2 * u_0.getD j 0 + st j u_0 desc) / 2)) u_0).length
      = u_0.length :=
    foldl_set_length _ _ _
  refine bind_eq_some_of (foldlM_eq_some _
    (fun u_1 j => u_1.set j ((2 * u_0.getD j 0 + st j u_0 desc) / 2)) _ _ ?_) ?_
  · intro acc j hj
    have hju : j < u_0.length := List.mem_range.mp hj
    rw [getElem?_eq_some_getD u_0 j 0 hju, hst j u_0]
    rfl
  dsimp only []
  generalize hv1 : (List.range u_0.length).foldl
    (fun u_1 j => u_1.set j ((2 * u_0.getD j 0 + st j u_0 desc) / 2)) u_0 = v1
  rw [hv1] at hlen1
  refine bind_eq_some_of (foldlM_eq_some _
    (fun u_2 j => u_2.set j ((2 * u_0.getD j 0 - st j u_0 desc + 2 * v1.getD j 0
      + 2 * st j v1 desc) / 4)) _ _ ?_) ?_
  · intro acc j hj
    have hju : j < u_0.length := List.mem_range.mp hj
    rw [getElem?_eq_some_getD u_0 j 0 hju,
      getElem?_eq_some_getD v1 j 0 (by rw [hlen1]; exact hju), hst j u_0, hst j v1]
    rfl
  dsimp only []
  have hlen2 : ((List.range u_0.length).foldl
      (fun u_2 j => u_2.set j ((2 * u_0.getD j 0 - st j u_0 desc + 2 * v1.getD j 0
        + 2 * st j v1 desc) / 4)) u_0).length = u_0.length :=
    foldl_set_length _ _ _
  generalize hv2 : (List.range u_0.length).foldl
    (fun u_2 j => u_2.set j ((2 * u_0.getD j 0 - st j u_0 desc + 2 * v1.getD j 0
      + 2 * st j v1 desc) / 4)) u_0 = v2
  rw [hv2] at hlen2
  refine bind_eq_some_of (foldlM_eq_some _
    (fun u_3 j => u_3.set j ((u_0.getD j 0 - st j u_0 desc + 2 * v1.getD j 0
      - 3 * st j v1 desc + 6 * v2.getD j 0 + 9 * st j v2 desc) / 9)) _ _ ?_) ?_
  · intro acc j hj
    have hju : j < u_0.length := List.mem_range.mp hj
    rw [getElem?_eq_some_getD u_0 j 0 hju,
      getElem?_eq_some_getD v1 j 0 (by rw [hlen1]; exact hju),
      getElem?_eq_some_getD v2 j 0 (by rw [hlen2]; exact hju),
      hst j u_0, hst j v1, hst j v2]
    rfl
  dsimp only []
  have hlen3 : ((List.range u_0.length).foldl
      (fun u_3 j => u_3.set j ((u_0.getD j 0 - st j u_0 desc + 2 * v1.getD j 0
        - 3 * st j v1 desc + 6 * v2.getD j 0 + 9 * st j v2 desc) / 9)) u_0).length
      = u_0.length :=
    foldl_set_length _ _ _
  generalize hv3 : (List.range u_0.length).foldl
    (fun u_3 j => u_3.set j ((u_0.getD j 0 - st j u_0 desc + 2 * v1.getD j 0
      - 3 * st j v1 desc + 6 * v2.getD j 0 + 9 * st j v2 desc) / 9)) u_0 = v3
  rw [hv3] at hlen3
  refine bind_eq_some_of (foldlM_eq_some _
    (fun u_4 j => u_4.set j ((2 * v1.getD j 0 + st j v1 desc + 2 * v2.getD j 0
      + 2 * v3.getD j 0 + st j v3 desc) / 6)) _ _ ?_) ?_
  · intro acc j hj
    have hju : j < u_0.length := List.mem_range.mp hj
    rw [getElem?_eq_some_getD v1 j 0 (by rw [hlen1]; exact hju),
      getElem?_eq_some_getD v2 j 0 (by rw [hlen2]; exact hju),
      getElem?_eq_some_getD v3 j 0 (by rw [hlen3]; exact hju), hst j v1, hst j v3]
    rfl
  rfl

theorem st_ofChk_eq (sch : SpatialScheme) (hsch : sch ≠ SpatialScheme.CIP) (i : ℕ)
    (u : List ℚ) (desc : Descriptor) :
    st_ofChk sch i u desc = some (st_of sch i u desc) := by
  cases sch
  · exact st_centralChk_eq i u desc
  · exact st_upwindChk_eq i u desc
  · exact st_lax_wendroffChk_eq i u desc
  · exact st_enoChk_eq i u desc
  · exact st_wenoChk_eq i u desc
  · exact absurd rfl hsch

theorem tt_ofChk_eq (tsch : TemporalScheme) (u : List ℚ)
    (stc : ℕ → List ℚ → Descriptor → Option ℚ) (st : ℕ → List ℚ → Descriptor → ℚ)
    (desc : Descriptor) (hst : ∀ j v, stc j v desc = some (st j v desc)) :
    tt_ofChk tsch u stc desc = some (tt_of tsch u st desc) := by
  cases tsch
  · exact tt_forward_eulerChk_eq u stc st desc hst
  · exact tt_rk2Chk_eq u stc st desc hst
  · exact tt_rk3Chk_eq u stc st desc hst
  · exact tt_rk4Chk_eq u stc st desc hst
  · exact tt_tvd_rk2Chk_eq u stc st desc hst
  · exact tt_tvd_rk3Chk_eq u stc st desc hst
  · exact tt_tvd_rk4Chk_eq u stc st desc hst

/-! Scenario-level lemmas. -/

theorem forward_desc (s : Scenario) : (Scenario.forward s).desc = s.desc := by
  rcases s with ⟨⟨ts, dt, dx, bd, v, sch, tsch⟩, u, buf⟩
  cases sch <;> cases buf <;> rfl

theorem forward_iterate_desc (s : Scenario) (k : ℕ) :
    (Scenario.forward^[k] s).desc = s.desc := by
  induction k with
  | zero => rfl
  | succ k ih => rw [Function.iterate_succ_apply', forward_desc, ih]

theorem forward_noncip (s : Scenario) (h : s.desc.spatial_scheme ≠ SpatialScheme.CIP) :
    Scenario.forward s =
      ⟨s.desc, tt_of s.desc.temporal_scheme s.u_grid (st_of s.desc.spatial_scheme) s.desc,
        s.scheme_buffer⟩ := by
  rcases s with ⟨⟨ts, dt, dx, bd, v, sch, tsch⟩, u, buf⟩
  cases sch <;> first
    | rfl
    | exact absurd rfl h

theorem forward_cip (s : Scenario) (g : List ℚ)
    (hsch : s.desc.spatial_scheme = SpatialScheme.CIP)
    (hbuf : s.scheme_buffer = SchemeBuffer.CIP g)
    (hlen : g.length = s.u_grid.length) :
    Scenario.forward s =
      ⟨s.desc,
        (List.range s.u_grid.length).map
          (fun i => s.u_grid.getD i 0 + (st_cip i s.u_grid g s.desc).1),
        SchemeBuffer.CIP ((List.range s.u_grid.length).map
          (fun i => (st_cip i s.u_grid g s.desc).2))⟩ := by
  rcases s with ⟨⟨ts, dt, dx, bd, v, sch, tsch⟩, u, buf⟩
  cases sch
  case Central => exact absurd hsch (by simp)
  case Upwind => exact absurd hsch (by simp)
  case LaxWendroff => exact absurd hsch (by simp)
  case ENO => exact absurd hsch (by simp)
  case WENO => exact absurd hsch (by simp)
  case CIP =>
  cases buf with
  | None => exact absurd hbuf (by simp)
  | CIP g' =>
    have hg : g' = g := by simpa using hbuf
    subst hg
    simp only at hlen
    show Scenario.mk _ _ _ = Scenario.mk _ _ _
    dsimp only []
    rw [foldl_set_pair_split,
      foldl_set_range_eq_map' (fun i => u.getD i 0
        + (st_cip i u g' ⟨ts, dt, dx, bd, v, SpatialScheme.CIP, tsch⟩).1) u.length u rfl,
      foldl_set_range_eq_map' (fun i =>
        (st_cip i u g' ⟨ts, dt, dx, bd, v, SpatialScheme.CIP, tsch⟩).2) u.length g' hlen.symm]

theorem bufferInv_new (desc : Descriptor) : BufferInv (Scenario.new desc) := by
  intro hsch
  have hs : desc.spatial_scheme = SpatialScheme.CIP := hsch
  refine ⟨List.replicate (discrete desc.bound desc) 0, ?_, ?_⟩
  · show (Scenario.new desc).scheme_buffer = _
    unfold Scenario.new
    simp only [hs]
  · show (List.replicate (discrete desc.bound desc) 0).length = (Scenario.new desc).u_grid.length
    unfold Scenario.new
    simp only []
    rw [foldl_set_length (fun _ => (1 : ℚ))]

theorem bufferInv_forward (s : Scenario) (h : BufferInv s) :
    BufferInv (Scenario.forward s) := by
  by_cases hsch : s.desc.spatial_scheme = SpatialScheme.CIP
  · obtain ⟨g, hbuf, hlen⟩ := h hsch
    rw [forward_cip s g hsch hbuf hlen]
    intro _
    refine ⟨_, rfl, ?_⟩
    simp [List.length_map, List.length_range]
  · rw [forward_noncip s hsch]
    intro hc
    exact absurd hc hsch

theorem forwardChk_eq (s : Scenario) (hinv : BufferInv s) :
    Scenario.forwardChk s = some (Scenario.forward s) := by
  rcases s with ⟨⟨ts, dt, dx, bd, v, sch, tsch⟩, u, buf⟩
  cases sch with
  | CIP =>
    cases buf with
    | None =>
      obtain ⟨g, hg, _⟩ := hinv rfl
      exact absurd hg (by simp)
    | CIP g =>
      obtain ⟨g', hg', hlen⟩ := hinv rfl
      have hgg : g = g' := by
        simp only at hg'
        exact (SchemeBuffer.CIP.injEq g g').mp hg'
      subst hgg
      simp only at hlen
      show Scenario.forwardChk _ = some (Scenario.forward _)
      unfold Scenario.forwardChk Scenario.forward
      simp only []
      refine bind_eq_some_of (foldlM_eq_some _
        (fun (ug : List ℚ × List ℚ) i =>
          (ug.1.set i (u.getD i 0 + (st_cip i u g ⟨ts, dt, dx, bd, v,
            SpatialScheme.CIP, tsch⟩).1),
           ug.2.set i (st_cip i u g ⟨ts, dt, dx, bd, v, SpatialScheme.CIP, tsch⟩).2))
        _ _ ?_) rfl
      intro acc j hj
      have hju : j < u.length := List.mem_range.mp hj
      rw [st_cipChk_eq j u g _ hlen, getElem?_eq_some_getD u j 0 hju]
      rfl
  | Central =>
    exact bind_eq_some_of (tt_ofChk_eq tsch u _ _ _
      (fun j v => st_ofChk_eq _ (by simp) j v _)) rfl
  | Upwind =>
    exact bind_eq_some_of (tt_ofChk_eq tsch u _ _ _
      (fun j v => st_ofChk_eq _ (by simp) j v _)) rfl
  | LaxWendroff =>
    exact bind_eq_some_of (tt_ofChk_eq tsch u _ _ _
      (fun j v => st_ofChk_eq _ (by simp) j v _)) rfl
  | ENO =>
    exact bind_eq_some_of (tt_ofChk_eq tsch u _ _ _
      (fun j v => st_ofChk_eq _ (by simp) j v _)) rfl
  | WENO =>
    exact bind_eq_some_of (tt_ofChk_eq tsch u _ _ _
      (fun j v => st_ofChk_eq _ (by simp) j v _)) rfl

theorem forwardRepeatChk_eq :
    ∀ (k : ℕ) (s : Scenario), BufferInv s →
      forwardRepeatChk k s = some (Scenario.forward^[k] s) := by
  intro k
  induction k with
  | zero => intro s _; rfl
  | succ k ih =>
    intro s h
    rw [forwardRepeatChk, forwardChk_eq s h, Option.some_bind,
      Function.iterate_succ_apply]
    exact ih (Scenario.forward s) (bufferInv_forward s h)

theorem map_range_getD_self {α : Type} (d : α) (l : List α) :
    (List.range l.length).map (fun i => l.getD i d) = l := by
  apply List.ext_getElem (by simp)
  intro j h1 h2
  rw [List.getElem_map, List.getElem_range, List.getD_eq_getElem?_getD,
    List.getElem?_eq_getElem h2]
  rfl

theorem getD_replicate {α : Type} (n i : ℕ) (a : α) :
    (List.replicate n a).getD i a = a := by
  rw [List.getD_eq_getElem?_getD, List.getElem?_replicate]
  split <;> rfl

theorem new_u_grid_length (desc : Descriptor) :
    (Scenario.new desc).u_grid.length = discrete desc.bound desc := by
  show (Scenario.new desc).u_grid.length = _
  unfold Scenario.new
  dsimp only []
  rw [foldl_set_length (fun _ => (1 : ℚ)), List.length_replicate]

theorem new_u_grid_getD (desc : Descriptor) (i : ℕ) :
    (Scenario.new desc).u_grid.getD i 0 =
      (if min (discrete 0.5 desc) (discrete desc.bound desc) ≤ i ∧
          i < min (discrete 1.0 desc) (discrete desc.bound desc) then 1 else 0) := by
  show (Scenario.new desc).u_grid.getD i 0 = _
  unfold Scenario.new
  dsimp only []
  rw [List.getD_eq_getElem?_getD, foldl_set_range'_getElem? (fun _ => (1 : ℚ)),
    List.length_replicate]
  have hun : min (discrete 1.0 desc) (discrete desc.bound desc)
      ≤ discrete desc.bound desc := min_le_right _ _
  by_cases hc : min (discrete 0.5 desc) (discrete desc.bound desc) ≤ i ∧
      i < min (discrete 0.5 desc) (discrete desc.bound desc) +
        (min (discrete 1.0 desc) (discrete desc.bound desc) -
          min (discrete 0.5 desc) (discrete desc.bound desc)) ∧
      i < discrete desc.bound desc
  · rw [if_pos hc, if_pos (by omega)]
    rfl
  · rw [if_neg hc, if_neg (by omega), List.getElem?_replicate]
    split <;> rfl

/-! The claims. -/

/-- C1 (amended): Scenario::new builds an initial field of length
n = discrete(bound) that is 1.0 exactly at indices i with
discrete(0.5).min(n) ≤ i < discrete(1.0).min(n) and 0.0 elsewhere: the
pulse bounds are the hardcoded constants 0.5 and 1.0, not Descriptor
parameters (Descriptor has no x_1/x_2 fields and Descriptor::new supplies
no such defaults). -/
theorem C1_init_square_wave (desc : Descriptor) (i : ℕ) :
    (Scenario.new desc).u_grid.length = discrete desc.bound desc ∧
    (Scenario.new desc).u_grid.getD i 0 =
      (if min (discrete 0.5 desc) (discrete desc.bound desc) ≤ i ∧
          i < min (discrete 1.0 desc) (discrete desc.bound desc) then 1 else 0) :=
  ⟨new_u_grid_length desc, new_u_grid_getD desc i⟩

/-- C1 counterexample: with the default Descriptor the claim's
x_1 = 2.0 discretizes to index 40, which is inside the grid (n = 200) but
holds 0.0: the actual pulse sits at indices 10 ..< 20 (positions
0.5 to 1.0), as witnessed by index 10 holding 1.0. -/
theorem C1_counterexample :
    discrete 2 Descriptor.new = 40 ∧
    40 < (Scenario.new Descriptor.new).u_grid.length ∧
    (Scenario.new Descriptor.new).u_grid.getD 40 0 = 0 ∧
    (Scenario.new Descriptor.new).u_grid.getD 10 0 = 1 := by
  have h2 : discrete 2 Descriptor.new = 40 := by
    unfold discrete
    rw [round_eq]
    norm_num [Descriptor.new]
    rfl
  have h05 : discrete 0.5 Descriptor.new = 10 := by
    unfold discrete
    rw [round_eq]
    norm_num [Descriptor.new]
    rfl
  have h10 : discrete 1.0 Descriptor.new = 20 := by
    unfold discrete
    rw [round_eq]
    norm_num [Descriptor.new]
    rfl
  have hb : discrete Descriptor.new.bound Descriptor.new = 200 := by
    unfold discrete
    rw [round_eq]
    norm_num [Descriptor.new]
    rfl
  refine ⟨h2, ?_, ?_, ?_⟩
  · rw [new_u_grid_length, hb]
    omega
  · rw [new_u_grid_getD, h05, h10, hb, if_neg (by omega)]
  · rw [new_u_grid_getD, h05, h10, hb, if_pos (by omega)]

/-- C3 (amended): each scheme returns exactly zero outside its guard
range: Central and Lax-Wendroff outside 1 ≤ i < n-1, ENO and WENO outside
3 ≤ i < n-3, Upwind with vel ≥ 0 (backward difference) outside
1 ≤ i < n, and Upwind with vel < 0 (forward difference) outside
i < n-1 — so index 0 gives zero for every scheme except Upwind with
negative velocity, whose valid range includes index 0 and excludes the
last index instead; with n = 8, WENO can be non-zero only at i = 3, 4. -/
theorem C3_boundary_zero (u : List ℚ) (desc : Descriptor) (i : ℕ) :
    (¬(1 ≤ i ∧ i < u.length - 1) → st_central i u desc = 0) ∧
    (¬(1 ≤ i ∧ i < u.length - 1) → st_lax_wendroff i u desc = 0) ∧
    (¬(3 ≤ i ∧ i < u.length - 3) → st_eno i u desc = 0) ∧
    (¬(3 ≤ i ∧ i < u.length - 3) → st_weno i u desc = 0) ∧
    (0 ≤ desc.vel → ¬(1 ≤ i ∧ i < u.length) → st_upwind i u desc = 0) ∧
    (desc.vel < 0 → ¬(i < u.length - 1) → st_upwind i u desc = 0) ∧
    (u.length = 8 → i ≠ 3 → i ≠ 4 → st_weno i u desc = 0) := by
  refine ⟨?_, ?_, ?_, ?_, ?_, ?_, ?_⟩
  · intro h
    unfold st_central
    rw [if_neg h]
  · intro h
    unfold st_lax_wendroff
    rw [if_neg h]
  · intro h
    unfold st_eno
    rw [if_neg h]
  · intro h
    unfold st_weno
    rw [if_neg h]
  · intro hv h
    unfold st_upwind st_backward
    rw [if_pos hv, if_neg h]
  · intro hv h
    unfold st_upwind st_forward
    rw [if_neg (not_le.mpr hv), if_neg (fun hc => h hc.2)]
  · intro hlen h3 h4
    unfold st_weno
    rw [if_neg (by omega)]

/-- C3 counterexample: the claim asserts zero increment at index 0 for
all schemes, but for Upwind with vel = -1 (forward difference, valid at
index 0) the increment at index 0 on the field [0, 1] is 1, not 0. -/
theorem C3_counterexample :
    st_upwind 0 [0, 1] descUpwindNeg = 1 ∧ (1 : ℚ) ≠ 0 := by
  constructor
  · norm_num [st_upwind, st_forward, st_backward, descUpwindNeg]
  · norm_num

/-- C5: on every interior index the WENO normalized weights, built as
a_k = c_k / (s_k + 1e-6)^2 with linear weights (0.1, 0.6, 0.3) and
normalized by their sum, satisfy w_1 + w_2 + w_3 = 1 (over the rationals
the indicators are always non-degenerate: s_k ≥ 0 forces
s_k + 1e-6 > 0); and st_weno is exactly the weighted combination of the
three candidate stencils scaled by p = -vel*delta_t. -/
theorem C5_weno_weights (u : List ℚ) (desc : Descriptor) (i : ℕ)
    (h3 : 3 ≤ i) (hn : i < u.length - 3) :
    weno_w1 u desc.delta_x i + weno_w2 u desc.delta_x i + weno_w3 u desc.delta_x i = 1 ∧
    st_weno i u desc =
      (weno_w1 u desc.delta_x i * weno_u1 u desc.delta_x i
        + weno_w2 u desc.delta_x i * weno_u2 u desc.delta_x i
        + weno_w3 u desc.delta_x i * weno_u3 u desc.delta_x i)
        * (-desc.vel * desc.delta_t) := by
  constructor
  · have he : (0 : ℚ) < 1e-6 := by norm_num
    have hs1 : (0 : ℚ) ≤ weno_s1 u desc.delta_x i := by
      unfold weno_s1
      positivity
    have hs2 : (0 : ℚ) ≤ weno_s2 u desc.delta_x i := by
      unfold weno_s2
      positivity
    have hs3 : (0 : ℚ) ≤ weno_s3 u desc.delta_x i := by
      unfold weno_s3
      positivity
    have ha1 : (0 : ℚ) < weno_a1 u desc.delta_x i := by
      unfold weno_a1
      exact div_pos (by norm_num) (pow_pos (by linarith) 2)
    have ha2 : (0 : ℚ) < weno_a2 u desc.delta_x i := by
      unfold weno_a2
      exact div_pos (by norm_num) (pow_pos (by linarith) 2)
    have ha3 : (0 : ℚ) < weno_a3 u desc.delta_x i := by
      unfold weno_a3
      exact div_pos (by norm_num) (pow_pos (by linarith) 2)
    unfold weno_w1 weno_w2 weno_w3
    rw [div_add_div_same, div_add_div_same, div_self (by linarith)]
  · unfold st_weno
    rw [if_pos ⟨h3, hn⟩]

/-- C5 witness at the concrete 8-node field and the default descriptor,
interior index 3. -/
theorem C5_weno_weights_witness :
    (3 ≤ 3 ∧ 3 < uTest8.length - 3) ∧
    (weno_w1 uTest8 Descriptor.new.delta_x 3 + weno_w2 uTest8 Descriptor.new.delta_x 3
        + weno_w3 uTest8 Descriptor.new.delta_x 3 = 1 ∧
      st_weno 3 uTest8 Descriptor.new =
        (weno_w1 uTest8 Descriptor.new.delta_x 3 * weno_u1 uTest8 Descriptor.new.delta_x 3
          + weno_w2 uTest8 Descriptor.new.delta_x 3 * weno_u2 uTest8 Descriptor.new.delta_x 3
          + weno_w3 uTest8 Descriptor.new.delta_x 3 * weno_u3 uTest8 Descriptor.new.delta_x 3)
          * (-Descriptor.new.vel * Descriptor.new.delta_t)) :=
  ⟨⟨by decide, by decide⟩,
    C5_weno_weights uTest8 Descriptor.new 3 (by decide) (by decide)⟩

/-- C6: on every interior index, ENO picks k = i-1 when vel ≥ 0 else
k = i, then l = k-1 when |d2m(k+1)| ≥ |d2m(k)| else l = k, then selects
the third-order branch by |d3h(l+1)| ≥ |d3h(l)|; the result is
(q1 + q2 + q3) * p with the four closed-form q3 expressions chosen by the
two boolean decisions; every comparison is non-strict, so an exact tie in
the second-difference magnitudes selects l = k - 1, and vel = 0 selects
k = i - 1. -/
theorem C6_eno_selection (u : List ℚ) (desc : Descriptor) (i : ℕ)
    (h3 : 3 ≤ i) (hn : i < u.length - 3) :
    (st_eno i u desc =
      (let dx := desc.delta_x
       let k := if 0 ≤ desc.vel then i - 1 else i
       let b2 := |eno_d2m u dx k| ≤ |eno_d2m u dx (k + 1)|
       let l := if b2 then k - 1 else k
       let b3 := |eno_d3h u dx l| ≤ |eno_d3h u dx (l + 1)|
       let q1 := (u.getD i 0 - u.getD (i - 1) 0) / dx
       let q2 :=
         if b2 then (u.getD i 0 - 2 * u.getD (i - 1) 0 + u.getD (i - 2) 0) / (2 * dx)
         else (u.getD (i + 1) 0 - 2 * u.getD i 0 + u.getD (i - 1) 0) / (2 * dx)
       let q3 :=
         if b2 ∧ b3 then
           (u.getD i 0 - 3 * u.getD (i - 1) 0 + 3 * u.getD (i - 2) 0 - u.getD (i - 3) 0)
             / (3 * dx)
         else if b2 ∧ ¬b3 then
           (u.getD (i + 1) 0 - 3 * u.getD i 0 + 3 * u.getD (i - 1) 0 - u.getD (i - 2) 0)
             / (3 * dx)
         else if ¬b2 ∧ b3 then
           (u.getD (i + 1) 0 - 3 * u.getD i 0 + 3 * u.getD (i - 1) 0 - u.getD (i - 2) 0)
             / (-6 * dx)
         else
           (u.getD (i + 2) 0 - 3 * u.getD (i + 1) 0 + 3 * u.getD i 0 - u.getD (i - 1) 0)
             / (-6 * dx)
       (q1 + q2 + q3) * (-desc.vel * desc.delta_t))) ∧
    (∀ kk : ℕ, |eno_d2m u desc.delta_x (kk + 1)| = |eno_d2m u desc.delta_x kk| →
      (if |eno_d2m u desc.delta_x kk| ≤ |eno_d2m u desc.delta_x (kk + 1)| then kk - 1 else kk)
        = kk - 1) ∧
    (desc.vel = 0 → (if 0 ≤ desc.vel then i - 1 else i) = i - 1) := by
  refine ⟨?_, ?_, ?_⟩
  · unfold st_eno
    rw [if_pos ⟨h3, hn⟩]
    dsimp only []
    simp only [sub_nonneg]
  · intro kk he
    exact if_pos he.ge
  · intro hv
    exact if_pos hv.ge

/-- C6 witness at the concrete 8-node field and the default descriptor,
interior index 3. -/
theorem C6_eno_selection_witness :
    (3 ≤ 3 ∧ 3 < uTest8.length - 3) ∧
    ((st_eno 3 uTest8 Descriptor.new =
      (let dx := Descriptor.new.delta_x
       let k := if 0 ≤ Descriptor.new.vel then 3 - 1 else 3
       let b2 := |eno_d2m uTest8 dx k| ≤ |eno_d2m uTest8 dx (k + 1)|
       let l := if b2 then k - 1 else k
       let b3 := |eno_d3h uTest8 dx l| ≤ |eno_d3h uTest8 dx (l + 1)|
       let q1 := (uTest8.getD 3 0 - uTest8.getD (3 - 1) 0) / dx
       let q2 :=
         if b2 then (uTest8.getD 3 0 - 2 * uTest8.getD (3 - 1) 0 + uTest8.getD (3 - 2) 0)
           / (2 * dx)
         else (uTest8.getD (3 + 1) 0 - 2 * uTest8.getD 3 0 + uTest8.getD (3 - 1) 0) / (2 * dx)
       let q3 :=
         if b2 ∧ b3 then
           (uTest8.getD 3 0 - 3 * uTest8.getD (3 - 1) 0 + 3 * uTest8.getD (3 - 2) 0
             - uTest8.getD (3 - 3) 0) / (3 * dx)
         else if b2 ∧ ¬b3 then
           (uTest8.getD (3 + 1) 0 - 3 * uTest8.getD 3 0 + 3 * uTest8.getD (3 - 1) 0
             - uTest8.getD (3 - 2) 0) / (3 * dx)
         else if ¬b2 ∧ b3 then
           (uTest8.getD (3 + 1) 0 - 3 * uTest8.getD 3 0 + 3 * uTest8.getD (3 - 1) 0
             - uTest8.getD (3 - 2) 0) / (-6 * dx)
         else
           (uTest8.getD (3 + 2) 0 - 3 * uTest8.getD (3 + 1) 0 + 3 * uTest8.getD 3 0
             - uTest8.getD (3 - 1) 0) / (-6 * dx)
       (q1 + q2 + q3) * (-Descriptor.new.vel * Descriptor.new.delta_t))) ∧
    (∀ kk : ℕ, |eno_d2m uTest8 Descriptor.new.delta_x (kk + 1)|
        = |eno_d2m uTest8 Descriptor.new.delta_x kk| →
      (if |eno_d2m uTest8 Descriptor.new.delta_x kk|
          ≤ |eno_d2m uTest8 Descriptor.new.delta_x (kk + 1)| then kk - 1 else kk) = kk - 1) ∧
    (Descriptor.new.vel = 0 → (if 0 ≤ Descriptor.new.vel then 3 - 1 else 3) = 3 - 1)) :=
  ⟨⟨by decide, by decide⟩,
    C6_eno_selection uTest8 Descriptor.new 3 (by decide) (by decide)⟩

/-- C7: tt_tvd_rk4 computes exactly the four-stage combination
u1 = (2u + d(u))/2, u2 = (2u - d(u) + 2u1 + 2d(u1))/4,
u3 = (u - d(u) + 2u1 - 3d(u1) + 6u2 + 9d(u2))/9,
u_next = (2u1 + d(u1) + 2u2 + 2u3 + d(u3))/6, elementwise over the full
array, for every field, spatial increment function and descriptor. -/
theorem C7_tvd_rk4 (u : List ℚ) (st : ℕ → List ℚ → Descriptor → ℚ) (desc : Descriptor) :
    tt_tvd_rk4 u st desc =
      (let n := u.length
       let u1 := (List.range n).map (fun i => (2 * u.getD i 0 + st i u desc) / 2)
       let u2 := (List.range n).map (fun i =>
         (2 * u.getD i 0 - st i u desc + 2 * u1.getD i 0 + 2 * st i u1 desc) / 4)
       let u3 := (List.range n).map (fun i =>
         (u.getD i 0 - st i u desc + 2 * u1.getD i 0 - 3 * st i u1 desc + 6 * u2.getD i 0
           + 9 * st i u2 desc) / 9)
       (List.range n).map (fun i =>
         (2 * u1.getD i 0 + st i u1 desc + 2 * u2.getD i 0 + 2 * u3.getD i 0
           + st i u3 desc) / 6)) := by
  simp only [tt_tvd_rk4, foldl_set_range_eq_map]

/-- C10: the RK2 and TVD-RK2 integrators agree exactly on every field,
spatial increment function and descriptor, since
(2u + d(u) + d(u1))/2 = (u + u1 + d(u1))/2 with u1 = u + d(u). -/
theorem C10_rk2_eq_tvd_rk2 (u_0 : List ℚ) (st : ℕ → List ℚ → Descriptor → ℚ)
    (desc : Descriptor) : tt_rk2 u_0 st desc = tt_tvd_rk2 u_0 st desc := by
  simp only [tt_rk2, tt_tvd_rk2, foldl_set_range_eq_map]
  apply List.map_congr_left
  intro i hi
  have hiu : i < u_0.length := List.mem_range.mp hi
  rw [map_range_getD, if_pos hiu]
  ring

theorem st_central_vel_zero (j : ℕ) (v : List ℚ) (desc : Descriptor)
    (hv : desc.vel = 0) : st_central j v desc = 0 := by
  unfold st_central
  split
  · dsimp only []
    rw [hv]
    ring
  · rfl

/-- C8: with Central spatial scheme, forward Euler and zero velocity,
every forward() call leaves the field unchanged, so after any number of
steps the state equals the initial Scenario exactly. -/
theorem C8_central_euler_vel_zero (desc : Descriptor) (k : ℕ)
    (hsch : desc.spatial_scheme = SpatialScheme.Central)
    (htsch : desc.temporal_scheme = TemporalScheme.ForwardEuler)
    (hv : desc.vel = 0) :
    Scenario.forward^[k] (Scenario.new desc) = Scenario.new desc := by
  apply Function.iterate_fixed
  have hne : (Scenario.new desc).desc.spatial_scheme ≠ SpatialScheme.CIP := by
    show desc.spatial_scheme ≠ _
    rw [hsch]
    simp
  rw [forward_noncip _ hne]
  have hu : tt_of (Scenario.new desc).desc.temporal_scheme (Scenario.new desc).u_grid
      (st_of (Scenario.new desc).desc.spatial_scheme) (Scenario.new desc).desc
      = (Scenario.new desc).u_grid := by
    have hd : (Scenario.new desc).desc = desc := rfl
    rw [hd, hsch, htsch]
    show tt_forward_euler (Scenario.new desc).u_grid st_central desc = _
    unfold tt_forward_euler
    rw [foldl_set_range_eq_map]
    trans ((List.range (Scenario.new desc).u_grid.length).map
      (fun j => (Scenario.new desc).u_grid.getD j 0))
    · exact List.map_congr_left (fun j _ => by rw [st_central_vel_zero j _ _ hv]; ring)
    · exact map_range_getD_self 0 _
  rw [hu]

/-- C8 witness at the spec's concrete v = 0 scenario, seven steps. -/
theorem C8_witness :
    (descCentralZero.spatial_scheme = SpatialScheme.Central ∧
     descCentralZero.temporal_scheme = TemporalScheme.ForwardEuler ∧
     descCentralZero.vel = 0) ∧
    Scenario.forward^[7] (Scenario.new descCentralZero) = Scenario.new descCentralZero :=
  ⟨⟨rfl, rfl, rfl⟩, C8_central_euler_vel_zero descCentralZero 7 rfl rfl rfl⟩

theorem st_cip_dt_zero (i : ℕ) (u g : List ℚ) (desc : Descriptor)
    (hdt : desc.delta_t = 0) :
    st_cip i u g desc = (0, if 1 ≤ i ∧ i < u.length then g.getD i 0 else 0) := by
  unfold st_cip
  by_cases hg : 1 ≤ i ∧ i < u.length
  · rw [if_pos hg, if_pos hg]
    dsimp only []
    rw [hdt]
    simp only [Prod.mk.injEq]
    constructor <;> ring
  · rw [if_neg hg, if_neg hg]

/-- C9: for a CIP Scenario with delta_t = 0 (hence p = 0), forward()
leaves both the value field and the slope field unchanged at every
index. -/
theorem C9_cip_dt_zero (desc : Descriptor) (k : ℕ)
    (hsch : desc.spatial_scheme = SpatialScheme.CIP)
    (hdt : desc.delta_t = 0) :
    Scenario.forward (Scenario.forward^[k] (Scenario.new desc))
      = Scenario.forward^[k] (Scenario.new desc) := by
  have hbuf : (Scenario.new desc).scheme_buffer
      = SchemeBuffer.CIP (List.replicate (discrete desc.bound desc) 0) := by
    show (Scenario.new desc).scheme_buffer = _
    unfold Scenario.new
    simp only [hsch]
  have hulen : (Scenario.new desc).u_grid.length = discrete desc.bound desc :=
    new_u_grid_length desc
  have hlen : (List.replicate (discrete desc.bound desc) (0 : ℚ)).length
      = (Scenario.new desc).u_grid.length := by
    rw [List.length_replicate, hulen]
  have hdt' : (Scenario.new desc).desc.delta_t = 0 := hdt
  have hstep : Scenario.forward (Scenario.new desc) = Scenario.new desc := by
    rw [forward_cip _ _ hsch hbuf hlen]
    have hu : (List.range (Scenario.new desc).u_grid.length).map
        (fun i => (Scenario.new desc).u_grid.getD i 0 +
          (st_cip i (Scenario.new desc).u_grid
            (List.replicate (discrete desc.bound desc) 0) (Scenario.new desc).desc).1)
        = (Scenario.new desc).u_grid := by
      trans ((List.range (Scenario.new desc).u_grid.length).map
        (fun i => (Scenario.new desc).u_grid.getD i 0))
      · apply List.map_congr_left
        intro j _
        rw [st_cip_dt_zero _ _ _ _ hdt']
        simp
      · exact map_range_getD_self 0 _
    have hg : (List.range (Scenario.new desc).u_grid.length).map
        (fun i => (st_cip i (Scenario.new desc).u_grid
          (List.replicate (discrete desc.bound desc) 0) (Scenario.new desc).desc).2)
        = List.replicate (discrete desc.bound desc) (0 : ℚ) := by
      apply ext_getD 0
      · rw [List.length_map, List.length_range, hulen, List.length_replicate]
      · intro j hjl
        rw [List.length_map, List.length_range] at hjl
        rw [map_range_getD, if_pos hjl, st_cip_dt_zero _ _ _ _ hdt', getD_replicate]
        simp
    rw [hu, hg, ← hbuf]
  rw [Function.iterate_fixed hstep k]
  exact hstep

/-- C9 witness at a concrete 3-node CIP descriptor with delta_t = 0,
after two prior steps. -/
theorem C9_witness :
    (descCIPdt0.spatial_scheme = SpatialScheme.CIP ∧ descCIPdt0.delta_t = 0) ∧
    Scenario.forward (Scenario.forward^[2] (Scenario.new descCIPdt0))
      = Scenario.forward^[2] (Scenario.new descCIPdt0) :=
  ⟨⟨rfl, rfl⟩, C9_cip_dt_zero descCIPdt0 2 rfl rfl⟩

theorem cip_invariant (desc : Descriptor) (hsch : desc.spatial_scheme = SpatialScheme.CIP)
    (k : ℕ) :
    (Scenario.forward^[k] (Scenario.new desc)).scheme_buffer
        = SchemeBuffer.CIP (cipGrid (Scenario.forward^[k] (Scenario.new desc))) ∧
    (cipGrid (Scenario.forward^[k] (Scenario.new desc))).length
        = (Scenario.forward^[k] (Scenario.new desc)).u_grid.length ∧
    (cipGrid (Scenario.forward^[k] (Scenario.new desc))).getD 0 0 = 0 := by
  induction k with
  | zero =>
    have hbuf : (Scenario.new desc).scheme_buffer
        = SchemeBuffer.CIP (List.replicate (discrete desc.bound desc) 0) := by
      show (Scenario.new desc).scheme_buffer = _
      unfold Scenario.new
      simp only [hsch]
    have hcip : cipGrid (Scenario.new desc) = List.replicate (discrete desc.bound desc) 0 := by
      unfold cipGrid
      rw [hbuf]
    refine ⟨?_, ?_, ?_⟩
    · show (Scenario.new desc).scheme_buffer = SchemeBuffer.CIP (cipGrid (Scenario.new desc))
      rw [hbuf, hcip]
    · show (cipGrid (Scenario.new desc)).length = (Scenario.new desc).u_grid.length
      rw [hcip, List.length_replicate, new_u_grid_length]
    · show (cipGrid (Scenario.new desc)).getD 0 0 = 0
      rw [hcip, getD_replicate]
  | succ k ih =>
    obtain ⟨hbuf, hlen, h0⟩ := ih
    have hdesc : (Scenario.forward^[k] (Scenario.new desc)).desc.spatial_scheme
        = SpatialScheme.CIP := by
      rw [forward_iterate_desc]
      exact hsch
    rw [Function.iterate_succ_apply', forward_cip _ _ hdesc hbuf hlen]
    refine ⟨rfl, ?_, ?_⟩
    · show (List.map _ _).length = (List.map _ _).length
      rw [List.length_map, List.length_map]
    · show (List.map _ _).getD 0 0 = 0
      rw [map_range_getD]
      by_cases h0u : 0 < (Scenario.forward^[k] (Scenario.new desc)).u_grid.length
      · rw [if_pos h0u]
        show (st_cip 0 _ _ _).2 = 0
        unfold st_cip
        rw [if_neg (by omega)]
      · rw [if_neg h0u]

/-- C4: for a CIP Scenario, forward() updates the two fields at every
index 1 ≤ i < n by the cubic-profile formulas
u'[i] = a p^3 + b p^2 + c p + u[i] and g'[i] = 3 a p^2 + 2 b p + c with
p = -vel * delta_t and a, b, c the cubic coefficients from u[i-1], u[i],
g[i-1], g[i] and delta_x, and leaves index 0 of both fields
unmodified. -/
theorem C4_cip_forward (desc : Descriptor) (k i : ℕ)
    (hsch : desc.spatial_scheme = SpatialScheme.CIP)
    (h1 : 1 ≤ i) (hi : i < (Scenario.forward^[k] (Scenario.new desc)).u_grid.length) :
    (let s := Scenario.forward^[k] (Scenario.new desc)
     let u := s.u_grid
     let g := cipGrid s
     let dx := desc.delta_x
     let p := -desc.vel * desc.delta_t
     let a := (g.getD i 0 + g.getD (i - 1) 0) / dx ^ 2
       - 2 * (u.getD i 0 - u.getD (i - 1) 0) / dx ^ 3
     let b := 3 * (u.getD (i - 1) 0 - u.getD i 0) / dx ^ 2
       + (2 * g.getD i 0 + g.getD (i - 1) 0) / dx
     let c := g.getD i 0
     ((Scenario.forward s).u_grid.getD i 0 = a * p ^ 3 + b * p ^ 2 + c * p + u.getD i 0 ∧
      (cipGrid (Scenario.forward s)).getD i 0 = 3 * a * p ^ 2 + 2 * b * p + c) ∧
     ((Scenario.forward s).u_grid.getD 0 0 = u.getD 0 0 ∧
      (cipGrid (Scenario.forward s)).getD 0 0 = g.getD 0 0)) := by
  obtain ⟨hbuf, hlen, h0⟩ := cip_invariant desc hsch k
  have hdesc : (Scenario.forward^[k] (Scenario.new desc)).desc.spatial_scheme
      = SpatialScheme.CIP := by
    rw [forward_iterate_desc]
    exact hsch
  have hdesc2 : (Scenario.forward^[k] (Scenario.new desc)).desc = desc :=
    forward_iterate_desc _ k
  dsimp only []
  rw [forward_cip _ _ hdesc hbuf hlen]
  dsimp only [cipGrid]
  simp only [hdesc2]
  refine ⟨⟨?_, ?_⟩, ?_, ?_⟩
  · rw [map_range_getD, if_pos hi]
    unfold st_cip
    rw [if_pos ⟨h1, hi⟩]
    dsimp only []
    ring
  · rw [map_range_getD, if_pos hi]
    unfold st_cip
    rw [if_pos ⟨h1, hi⟩]
  · rw [map_range_getD, if_pos (by omega)]
    unfold st_cip
    rw [if_neg (by omega)]
    dsimp only []
    ring
  · rw [map_range_getD, if_pos (by omega)]
    unfold st_cip
    rw [if_neg (by omega)]
    exact h0.symm

/-- C4 witness at a concrete 3-node CIP descriptor, k = 0, i = 1. -/
theorem C4_cip_forward_witness :
    (descCIP.spatial_scheme = SpatialScheme.CIP ∧ (1 : ℕ) ≤ 1 ∧
      1 < (Scenario.forward^[0] (Scenario.new descCIP)).u_grid.length) ∧
    (let s := Scenario.forward^[0] (Scenario.new descCIP)
     let u := s.u_grid
     let g := cipGrid s
     let dx := descCIP.delta_x
     let p := -descCIP.vel * descCIP.delta_t
     let a := (g.getD 1 0 + g.getD (1 - 1) 0) / dx ^ 2
       - 2 * (u.getD 1 0 - u.getD (1 - 1) 0) / dx ^ 3
     let b := 3 * (u.getD (1 - 1) 0 - u.getD 1 0) / dx ^ 2
       + (2 * g.getD 1 0 + g.getD (1 - 1) 0) / dx
     let c := g.getD 1 0
     ((Scenario.forward s).u_grid.getD 1 0 = a * p ^ 3 + b * p ^ 2 + c * p + u.getD 1 0 ∧
      (cipGrid (Scenario.forward s)).getD 1 0 = 3 * a * p ^ 2 + 2 * b * p + c) ∧
     ((Scenario.forward s).u_grid.getD 0 0 = u.getD 0 0 ∧
      (cipGrid (Scenario.forward s)).getD 0 0 = g.getD 0 0)) :=
  have hlen : 1 < (Scenario.forward^[0] (Scenario.new descCIP)).u_grid.length := by
    show 1 < (Scenario.new descCIP).u_grid.length
    rw [new_u_grid_length]
    unfold discrete
    rw [round_eq]
    norm_num [descCIP]
  ⟨⟨rfl, le_refl 1, hlen⟩, C4_cip_forward descCIP 0 1 rfl (le_refl 1) hlen⟩

/-- C2: for every Descriptor with delta_t > 0, delta_x > 0 and
bound ≥ 0, building a Scenario and stepping it any number of times never
fails at runtime: in the checked layer, where every slice access is
partial and the unreachable dispatch arms are failures, k steps return
exactly some of the total-layer state. -/
theorem C2_no_runtime_failure (desc : Descriptor) (_hdt : 0 < desc.delta_t)
    (_hdx : 0 < desc.delta_x) (_hb : 0 ≤ desc.bound) (k : ℕ) :
    forwardRepeatChk k (Scenario.new desc) = some (Scenario.forward^[k] (Scenario.new desc)) :=
  forwardRepeatChk_eq k (Scenario.new desc) (bufferInv_new desc)

/-- C2 witness at the default descriptor (WENO, forward Euler), one
step. -/
theorem C2_no_runtime_failure_witness :
    ((0 : ℚ) < Descriptor.new.delta_t ∧ (0 : ℚ) < Descriptor.new.delta_x ∧
      (0 : ℚ) ≤ Descriptor.new.bound) ∧
    forwardRepeatChk 1 (Scenario.new Descriptor.new)
      = some (Scenario.forward^[1] (Scenario.new Descriptor.new)) :=
  ⟨⟨by norm_num [Descriptor.new], by norm_num [Descriptor.new], by norm_num [Descriptor.new]⟩,
    C2_no_runtime_failure Descriptor.new (by norm_num [Descriptor.new])
      (by norm_num [Descriptor.new]) (by norm_num [Descriptor.new]) 1⟩

end Advection
